import Mathlib

/-!
Verification of the training-planner core (validator, fragility scorer,
periodization planner, sensitivity analyzer) against its specification.

The Python source is shallowly embedded: Python floats become exact
rationals (`ℚ`), Python ints become `ℤ`/`ℕ`, fallible Python code (code
that can raise) returns `Except PyErr`, pydantic model construction with
field validators becomes smart constructors that check the declared
bounds, and `None`-able fields become `Option`.
-/

set_option maxRecDepth 100000
set_option allowUnsafeReducibility true

namespace TP

/-- Python whitespace characters recognized by `str.strip()`. -/
def isPySpace (c : Char) : Bool :=
  c == ' ' || c == '\t' || c == '\n' || c == '\r' ||
    c == Char.ofNat 11 || c == Char.ofNat 12

/-- Python `s.strip()`: remove whitespace from both ends. -/
def pyStrip (s : String) : String :=
  String.mk ((((s.toList.dropWhile isPySpace).reverse).dropWhile
    isPySpace).reverse)

/-- ASCII lower-casing of a character (the configuration and rule strings
are ASCII). -/
def charLower (c : Char) : Char :=
  if 'A' ≤ c ∧ c ≤ 'Z' then Char.ofNat (c.toNat + 32) else c

/-- Python `s.lower()` (ASCII). -/
def pyLower (s : String) : String :=
  String.mk (s.toList.map charLower)

/-- Remainder of `s` after the prefix `pat`, when `pat` is a prefix. -/
def dropPre? : List Char → List Char → Option (List Char)
  | [], s => some s
  | _, [] => Option.none
  | p :: ps, c :: cs => if p = c then dropPre? ps cs else Option.none

/-- Python `s.startswith(pat)`. -/
def pyStarts (s pat : String) : Bool :=
  (dropPre? pat.toList s.toList).isSome

/-- Python `s.endswith(pat)`. -/
def pyEnds (s pat : String) : Bool :=
  (dropPre? pat.toList.reverse s.toList.reverse).isSome

/-- The scanning loop of `str.split(pat)` for a non-empty separator:
left-to-right, non-overlapping; recursion is on a fuel bound of the
character count. -/
def splitOnAuxL (pat : List Char) : ℕ → List Char → List Char →
    List (List Char)
  | 0, cur, _ => [cur.reverse]
  | _ + 1, cur, [] => [cur.reverse]
  | fuel + 1, cur, c :: cs =>
    match dropPre? pat (c :: cs) with
    | some rem => cur.reverse :: splitOnAuxL pat fuel [] rem
    | Option.none => splitOnAuxL pat fuel (c :: cur) cs

/-- Python `s.split(pat)` for a non-empty separator. -/
def pySplitOn (s pat : String) : List String :=
  (splitOnAuxL pat.toList s.toList.length [] s.toList).map String.mk

/-- The scanning loop of `str.replace(target, repl)`. -/
def replaceAuxL (pat repl : List Char) : ℕ → List Char → List Char
  | 0, s => s
  | _ + 1, [] => []
  | fuel + 1, c :: cs =>
    match dropPre? pat (c :: cs) with
    | some rem => repl ++ replaceAuxL pat repl fuel rem
    | Option.none => c :: replaceAuxL pat repl fuel cs

/-- Python `s.replace(target, repl)` for a non-empty target. -/
def pyReplace (s target repl : String) : String :=
  String.mk (replaceAuxL target.toList repl.toList s.toList.length s.toList)

/-- Python `s[n:]` on our ASCII strings. -/
def sDrop (s : String) (n : ℕ) : String :=
  String.mk (s.toList.drop n)

/-- Python `s[:-n]` on our ASCII strings. -/
def sDropRight (s : String) (n : ℕ) : String :=
  String.mk (s.toList.take (s.toList.length - n))

/-- Exceptions that the embedded Python code can raise. -/
inductive PyErr where
  | valueError (msg : String)
  | typeError (msg : String)
  | attributeError (msg : String)
  | zeroDivisionError (msg : String)
deriving DecidableEq, Repr

/-- Decidable equality on `Except`, for concrete evaluations. -/
instance {ε α : Type _} [DecidableEq ε] [DecidableEq α] :
    DecidableEq (Except ε α) := fun a b =>
  match a, b with
  | .ok x, .ok y =>
    if h : x = y then .isTrue (by rw [h]) else .isFalse (by simp [h])
  | .error e, .error e' =>
    if h : e = e' then .isTrue (by rw [h]) else .isFalse (by simp [h])
  | .ok _, .error _ => .isFalse (by simp)
  | .error _, .ok _ => .isFalse (by simp)

/-- Dynamically-typed Python values as they flow through the rule evaluator
and the profile field lookup.  `enumV` holds the `.value` string of a
`(str, Enum)` member; `obj` is an opaque tag for non-scalar attribute
values (e.g. the optional activity log object). -/
inductive PyVal where
  | none
  | bool (b : Bool)
  | int (n : ℤ)
  | num (q : ℚ)
  | str (s : String)
  | enumV (v : String)
deriving DecidableEq, Repr

/-- Numeric view of a Python value, when it has one (bool is numeric in
Python: `True == 1`). -/
def PyVal.toNum : PyVal → Option ℚ
  | .bool b => some (if b then 1 else 0)
  | .int n => some (n : ℚ)
  | .num q => some q
  | _ => Option.none

/-- Python `==` between the values we model.  Numbers and booleans compare
numerically across types; strings compare as strings; a `(str, Enum)`
member equals both another member and its underlying value string; all
remaining cross-type comparisons are `False` (Python `==` never raises). -/
def pyEq (a b : PyVal) : Bool :=
  match a.toNum, b.toNum with
  | some x, some y => x == y
  | _, _ =>
    match a, b with
    | .str s, .str t => s == t
    | .enumV s, .enumV t => s == t
    | .str s, .enumV t => s == t
    | .enumV s, .str t => s == t
    | .none, .none => true
    | _, _ => false

/-- Digits of a natural number (recursion on the fuel argument). -/
def natDigitsAux : Nat → Nat → List Char
  | _, 0 => []
  | n, fuel + 1 =>
    if n < 10 then [Char.ofNat (n + 48)]
    else natDigitsAux (n / 10) fuel ++ [Char.ofNat (n % 10 + 48)]

/-- Decimal string of a natural number. -/
def natToDigits (n : Nat) : String :=
  String.mk (natDigitsAux n (n + 1))

/-- Decimal string of an integer. -/
def intToDecimal (n : ℤ) : String :=
  if n < 0 then "-" ++ natToDigits n.natAbs else natToDigits n.natAbs

/-- Python `round` (banker's rounding, half to even) on an exact rational. -/
def pyRound (q : ℚ) : ℤ :=
  let f : ℤ := ⌊q⌋
  let r : ℚ := q - (f : ℚ)
  if r < 1/2 then f
  else if 1/2 < r then f + 1
  else if f % 2 = 0 then f else f + 1

/-- Python `int(...)` applied to a float: truncation toward zero. -/
def pyTrunc (q : ℚ) : ℤ :=
  if 0 ≤ q then ⌊q⌋ else -⌊-q⌋

/-- Fixed-point rendering of a rational with `d` decimal places, as Python's
`format(x, '.df')` renders it for the floats that appear here (ties are
rounded half to even; the binary-float artifacts of CPython formatting are
not modelled). -/
def formatFixed (q : ℚ) (d : ℕ) : String :=
  let scaled : ℤ := pyRound (|q| * ((10 : ℚ) ^ d))
  let sign : String := if q < 0 ∧ scaled ≠ 0 then "-" else ""
  if d = 0 then sign ++ intToDecimal scaled
  else
    let whole := scaled.natAbs / 10 ^ d
    let frac := scaled.natAbs % 10 ^ d
    let fracStr := natToDigits frac
    let pad := String.mk (List.replicate (d - fracStr.length) '0')
    sign ++ natToDigits whole ++ "." ++ pad ++ fracStr

/-- Python `repr`-like rendering of a float value: integers print with a
trailing `.0`, other rationals with their shortest terminating decimal
expansion (or 6 places when none terminates within float precision).
Only used to build human-readable strings. -/
def floatRepr (q : ℚ) : String :=
  match (List.range 18).find? (fun d => (q * ((10:ℚ) ^ d)).den = 1) with
  | some 0 => intToDecimal q.num ++ ".0"
  | some d => formatFixed q d
  | Option.none => formatFixed q 6

/-- Python `str()` of a value.  A `(str, Enum)` member renders as
`ClassName.MEMBER` in CPython; we keep an `Enum.`-prefixed form of its
value string, preserving the one property the code depends on: it never
equals a bare literal such as `"high"`. -/
def pyStr : PyVal → String
  | .none => "None"
  | .bool b => if b then "True" else "False"
  | .int n => intToDecimal n
  | .num q => floatRepr q
  | .str s => s
  | .enumV v => "Enum." ++ v

/-- Thresholds reported by the rule evaluator: either a scalar value or a
parsed literal list (for set-membership rules). -/
inductive Thresh where
  | scalar (x : PyVal)
  | range (s : String)
  | list (xs : List PyVal)
deriving DecidableEq, Repr

/-- Character-level helper for `pyFloat?`: splits a leading digit run. -/
def takeDigits : List Char → (List Char × List Char)
  | [] => ([], [])
  | c :: cs =>
    if c.isDigit then
      let (ds, rest) := takeDigits cs
      (c :: ds, rest)
    else ([], c :: cs)

/-- Value of a digit list read as a natural number. -/
def digitsVal (ds : List Char) : ℕ :=
  ds.foldl (fun acc c => acc * 10 + (c.toNat - 48)) 0

/-- Python `float(s)` on a stripped string, for the plain decimal literals
(`"6"`, `"6.5"`, `".5"`, `"-3."`, optional sign) that rule expressions use;
exponents, `inf` and `nan` are not modelled and parse as failures. -/
def pyFloat? (s : String) : Option ℚ :=
  let cs := (pyStrip s).toList
  let (sign, cs) : ℚ × List Char :=
    match cs with
    | '-' :: rest => (-1, rest)
    | '+' :: rest => (1, rest)
    | _ => (1, cs)
  let (intDigits, cs) := takeDigits cs
  match cs with
  | [] =>
    if intDigits.isEmpty then Option.none
    else some (sign * (digitsVal intDigits : ℚ))
  | '.' :: rest =>
    let (fracDigits, rest') := takeDigits rest
    if rest'.isEmpty then
      if intDigits.isEmpty ∧ fracDigits.isEmpty then Option.none
      else
        some (sign * ((digitsVal intDigits : ℚ) +
          (digitsVal fracDigits : ℚ) / ((10 : ℚ) ^ fracDigits.length)))
    else Option.none
  | _ => Option.none

/-- Python substring containment `pat in s` (for a non-empty pattern),
via the same non-overlapping decomposition `str.split` uses. -/
def containsSub (s pat : String) : Bool :=
  (pySplitOn s pat).length != 1

/-- Python `s.strip(chars)`: removes any of the given characters from both
ends. -/
def stripChars (s : String) (cs : List Char) : String :=
  String.mk ((((s.toList.dropWhile (cs.contains ·)).reverse).dropWhile
    (cs.contains ·)).reverse)

/-- Opaque non-scalar attribute values (modelled for `activity_log` /
`strava_status`, which no rule sensibly compares). -/
def objTag (tag : String) : PyVal := .str ("<" ++ tag ++ " object>")

/-! ## Schemas (src/schemas.py) -/

/-- Severity of a safety-gate violation (schemas.Severity). -/
inductive Severity where
  | warning
  | blocking
deriving DecidableEq, Repr

/-- Self-reported life stress (schemas.StressLevel). -/
inductive StressLevel where
  | low
  | moderate
  | high
deriving DecidableEq, Repr

/-- Underlying string value of a stress level. -/
def StressLevel.value : StressLevel → String
  | .low => "low"
  | .moderate => "moderate"
  | .high => "high"

/-- HRV trend direction (schemas.HRVTrend). -/
inductive HRVTrend where
  | increasing
  | stable
  | decreasing
  | unknown
deriving DecidableEq, Repr

/-- Underlying string value of an HRV trend. -/
def HRVTrend.value : HRVTrend → String
  | .increasing => "increasing"
  | .stable => "stable"
  | .decreasing => "decreasing"
  | .unknown => "unknown"

/-- Days of the week (schemas.Weekday / plan_schemas.Weekday). -/
inductive Weekday where
  | monday
  | tuesday
  | wednesday
  | thursday
  | friday
  | saturday
  | sunday
deriving DecidableEq, Repr

/-- Underlying string value of a weekday. -/
def dayValue : Weekday → String
  | .monday => "monday"
  | .tuesday => "tuesday"
  | .wednesday => "wednesday"
  | .thursday => "thursday"
  | .friday => "friday"
  | .saturday => "saturday"
  | .sunday => "sunday"

/-- Weekday member for a value string, when one matches. -/
def dayOfValue (s : String) : Option Weekday :=
  if s == "monday" then some .monday
  else if s == "tuesday" then some .tuesday
  else if s == "wednesday" then some .wednesday
  else if s == "thursday" then some .thursday
  else if s == "friday" then some .friday
  else if s == "saturday" then some .saturday
  else if s == "sunday" then some .sunday
  else Option.none

/-- A methodology assumption record (schemas.Assumption); the criticality
tier is carried as its value string. -/
structure Assumption where
  key : String
  expectation : String
  reasoning_justification : String
  criticality : String
  validation_rule : String
deriving DecidableEq, Repr

/-- A safety-gate exclusion criterion (schemas.ExclusionCriterion). -/
structure ExclusionCriterion where
  condition : String
  threshold : String
  severity : Severity
  validation_logic : String
  bridge_action : String
deriving DecidableEq, Repr

/-- Circuit-breaker configuration (schemas.SafetyGates). -/
structure SafetyGates where
  exclusion_criteria : List ExclusionCriterion
  refusal_bridge_template : String
deriving DecidableEq, Repr

/-- Methodology risk characterization (schemas.RiskProfile).  The penalty
weights are optional exactly as in the source (`Optional[Dict[str,float]]`
with default `None`); the dict becomes an association list. -/
structure RiskProfile where
  fragility_score : ℚ
  sensitivity_factors : List String
  fragility_calculation_weights : Option (List (String × ℚ))
deriving DecidableEq, Repr

/-- Python `dict.get(k, 0.0)` on the weights association list. -/
def weightsGet (w : List (String × ℚ)) (k : String) : ℚ :=
  ((w.find? (fun kv => kv.1 == k)).map (fun kv => kv.2)).getD 0

/-- Intensity zone targets (schemas.IntensityDistributionConfig). -/
structure IntensityDistributionConfig where
  low_intensity_target : ℚ
  threshold_intensity_target : ℚ
  high_intensity_target : ℚ
  tolerance_percent : ℚ
deriving DecidableEq, Repr

/-- A high-intensity workout template (schemas.HIWorkoutTemplate). -/
structure HIWorkoutTemplate where
  session_type : String
  primary_zone : String
  workout_description : String
  discipline : String
  recommended_phases : List String
deriving DecidableEq, Repr

/-- HI workout template pool and rotation strategy
(schemas.SessionTypeConfig). -/
structure SessionTypeConfig where
  hi_workout_templates : List HIWorkoutTemplate
  rotation_strategy : String
  max_consecutive_same_type : ℕ
deriving DecidableEq, Repr

/-- Phase allocation percentages for one plan-length bucket
(schemas.PhasePercentages). -/
structure PhasePercentages where
  base_percent : ℚ
  build_percent : ℚ
  peak_percent : ℚ
  taper_percent : ℚ
  min_base_weeks : ℕ
  min_build_weeks : ℕ
  min_peak_weeks : ℕ
  min_taper_weeks : ℕ
deriving DecidableEq, Repr

/-- Phase allocation configuration (schemas.PhaseDistributionConfig). -/
structure PhaseDistributionConfig where
  short_plan_phases : PhasePercentages
  medium_plan_phases : PhasePercentages
  long_plan_phases : PhasePercentages
  volume_consistency_threshold : ℕ
  base_extension_weeks : ℕ
deriving DecidableEq, Repr

/-- Modelled from the spec: a load:recovery ratio rule of the
PeriodizationConfig (`ratio.load_weeks`, `ratio.recovery_weeks`,
`ratio.mesocycle_length` as read by planner.py); the class itself is
imported from src.schemas by planner.py but its definition is not under
src/. -/
structure LoadRecoveryRule where
  load_weeks : ℕ
  recovery_weeks : ℕ
  mesocycle_length : ℕ
deriving DecidableEq, Repr

/-- Modelled from the spec: the recovery-week section of the
PeriodizationConfig (volume-multiplier bounds, HI-session cap and note
template, as read by planner.py); not defined under src/. -/
structure RecoveryWeekConfig where
  volume_multiplier_min : ℚ
  volume_multiplier_max : ℚ
  max_hi_sessions : ℕ
  week_note_template : String
deriving DecidableEq, Repr

/-- Modelled from the spec: the optional PeriodizationConfig
("load:recovery ratio rules, recovery-week volume multiplier bounds,
phase-specific deload adjustments"), whose definition is imported by
planner.py from src.schemas but is not under src/.  Field names follow the
attribute accesses in planner.py; `high_fragility_rule` and `default_rule`
stand for the source's `high_fragility_ratio` / `default_ratio`. -/
structure PeriodizationConfig where
  fragility_threshold : ℚ
  experience_threshold_years : ℚ
  high_fragility_rule : LoadRecoveryRule
  default_rule : LoadRecoveryRule
  skip_final_mesocycle_recovery : Bool
  recovery_week_config : RecoveryWeekConfig
  phase_deload_adjustments : List (String × ℚ)
deriving DecidableEq, Repr

/-- Modelled from the spec: the defaults used when a methodology has no
periodization config (`PeriodizationConfig()` in planner.py): a 3:1
default ratio, a 2:1 high-fragility ratio (spec §4.4 step 3), a beginner
threshold of 2 years (the planner's own "beginner (<2 years)" text), and
recovery weeks at 50–70% volume with at most one HI session. -/
def defaultPeriodizationConfig : PeriodizationConfig where
  fragility_threshold := 6/10
  experience_threshold_years := 2
  high_fragility_rule := { load_weeks := 2, recovery_weeks := 1, mesocycle_length := 3 }
  default_rule := { load_weeks := 3, recovery_weeks := 1, mesocycle_length := 4 }
  skip_final_mesocycle_recovery := true
  recovery_week_config :=
    { volume_multiplier_min := 1/2
      volume_multiplier_max := 7/10
      max_hi_sessions := 1
      week_note_template := "RECOVERY WEEK: Volume reduced to {volume_percent}% for adaptation." }
  phase_deload_adjustments := []

/-- The methodology model card (schemas.MethodologyModelCard), restricted
to the fields the embedded core reads; `periodization_config` is the
optional field planner.py reads from the card. -/
structure MethodologyModelCard where
  id : String
  name : String
  version : String
  assumptions : List Assumption
  safety_gates : SafetyGates
  risk_profile : RiskProfile
  intensity_distribution_config : IntensityDistributionConfig
  session_type_config : SessionTypeConfig
  phase_distribution_config : PhaseDistributionConfig
  periodization_config : Option PeriodizationConfig
deriving DecidableEq, Repr

/-- Current athlete state (schemas.CurrentState); every attribute name the
validator can look up is present, optional fields as `Option`. -/
structure CurrentState where
  sleep_hours : ℚ
  sleep_consistency : Option ℚ
  injury_status : Bool
  injury_details : Option String
  stress_level : StressLevel
  stress_details : Option String
  weekly_volume_hours : ℚ
  volume_consistency_weeks : Option ℕ
  resting_heart_rate : Option ℤ
  hrv_trend : HRVTrend
  recent_illness : Bool
  menstrual_cycle_phase : String
  activity_log : Option Unit
  strava_status : Option Unit
deriving DecidableEq, Repr

/-- Training history (schemas.TrainingHistory); only `years_training` is
read by the core. -/
structure TrainingHistory where
  years_training : Option ℚ
deriving DecidableEq, Repr

/-- Training goals (schemas.Goals); dates are day numbers. -/
structure Goals where
  primary_goal : String
  race_date : Option ℤ
  race_distance : Option String
  goal_finish_time : Option String
  weeks_to_race : Option ℕ
  priority_level : String
deriving DecidableEq, Repr

/-- External constraints (schemas.Constraints); the equipment and
environment subrecords are never read by the core. -/
structure Constraints where
  available_training_days : ℕ
  max_session_duration_hours : ℚ
deriving DecidableEq, Repr

/-- User preferences (schemas.Preferences). -/
structure Preferences where
  preferred_intensity_distribution : Option String
  long_workout_day : Option Weekday
  rest_day : Option Weekday
deriving DecidableEq, Repr

/-- Athlete profile (schemas.UserProfile); `profile_date` is a day
number. -/
structure UserProfile where
  athlete_id : String
  profile_date : ℤ
  current_state : CurrentState
  training_history : Option TrainingHistory
  goals : Goals
  constraints : Option Constraints
  preferences : Option Preferences
deriving DecidableEq, Repr

/-- Record of a single assumption check (schemas.AssumptionCheck). -/
structure AssumptionCheck where
  assumption_key : String
  passed : Bool
  user_value : PyVal
  threshold : Option Thresh
  reasoning : String
deriving DecidableEq, Repr

/-- Record of a safety-gate violation (schemas.GateViolation). -/
structure GateViolation where
  condition : String
  threshold : String
  severity : Severity
  bridge : String
  assumption_expectation : Option String
  reasoning_justification : Option String
deriving DecidableEq, Repr

/-- Validation decision trace (schemas.ReasoningTrace); the timestamp is
not modelled. -/
structure ReasoningTrace where
  methodology_id : String
  athlete_id : String
  checks : List AssumptionCheck
  safety_gates : List GateViolation
  result : String
  fragility_score : Option ℚ
deriving DecidableEq, Repr

/-- Structured refusal (schemas.RefusalResponse). -/
structure RefusalResponse where
  status : String
  violations : List GateViolation
  reasoning_trace_id : Option String
  message : Option String
deriving DecidableEq, Repr

/-- Overall validation outcome (schemas.ValidationResult). -/
structure ValidationResult where
  approved : Bool
  refusal_response : Option RefusalResponse
  reasoning_trace : ReasoningTrace
  warnings : List String
deriving DecidableEq, Repr

/-! ## Validator (src/validator.py, MethodologyValidator) -/

/-- Python `float(s)` raising `ValueError` on failure. -/
def floatE (s : String) : Except PyErr ℚ :=
  match pyFloat? s with
  | some q => .ok q
  | Option.none =>
      .error (.valueError ("could not convert string to float: " ++ pyStrip s))

/-- Numeric coercion of an observed value for a `<`/`<=`/`>`/`>=`
comparison against a float threshold; non-numeric values raise `TypeError`
exactly where CPython would. -/
def asNum (v : PyVal) : Except PyErr ℚ :=
  match v.toNum with
  | some q => .ok q
  | Option.none =>
      .error (.typeError ("unsupported comparison with value " ++ pyStr v))

/-- Quote characters stripped by `strip("'\"")`. -/
def quoteChars : List Char := ['\'', '"']

/-- Parses the token list of a Python list literal, as `ast.literal_eval`
accepts for the flat lists of quoted strings / numbers / booleans used in
membership rules (nested containers are not modelled and fail, which the
caller turns into the same fail-closed outcome as a literal_eval error). -/
def parseListItem (s : String) : Option PyVal :=
  let t := pyStrip s
  let cs := t.toList
  let quoted : Bool :=
    match cs.head?, cs.getLast? with
    | some c0, some c1 =>
        decide (2 ≤ cs.length) && quoteChars.contains c0 && c0 == c1
    | _, _ => false
  if quoted then
    some (.str (stripChars t quoteChars))
  else if t == "True" then some (.bool true)
  else if t == "False" then some (.bool false)
  else if t == "None" then some PyVal.none
  else
    match pyFloat? t with
    | some q => if containsSub t "." then some (.num q) else some (.int q.num)
    | Option.none => Option.none

/-- Python `ast.literal_eval` restricted to flat list literals. -/
def parseLiteralList (s : String) : Option (List PyVal) :=
  let t := pyStrip s
  if pyStarts t "[" ∧ pyEnds t "]" then
    let inner := pyStrip (sDropRight (sDrop t 1) 1)
    if inner.toList.isEmpty then some []
    else (pySplitOn inner ",").mapM parseListItem
  else Option.none

/-- Python `getattr(current_state, key)` guarded by `hasattr`: `some` for
every CurrentState attribute name (with `None`-valued optionals as
`PyVal.none`), `none` for an unknown attribute. -/
def currentStateAttr (cs : CurrentState) (key : String) : Option PyVal :=
  if key == "sleep_hours" then some (.num cs.sleep_hours)
  else if key == "sleep_consistency" then
    some ((cs.sleep_consistency.map PyVal.num).getD .none)
  else if key == "injury_status" then some (.bool cs.injury_status)
  else if key == "injury_details" then
    some ((cs.injury_details.map PyVal.str).getD .none)
  else if key == "stress_level" then some (.enumV cs.stress_level.value)
  else if key == "stress_details" then
    some ((cs.stress_details.map PyVal.str).getD .none)
  else if key == "weekly_volume_hours" then some (.num cs.weekly_volume_hours)
  else if key == "volume_consistency_weeks" then
    some ((cs.volume_consistency_weeks.map (fun n => PyVal.int n)).getD .none)
  else if key == "resting_heart_rate" then
    some ((cs.resting_heart_rate.map PyVal.int).getD .none)
  else if key == "hrv_trend" then some (.enumV cs.hrv_trend.value)
  else if key == "recent_illness" then some (.bool cs.recent_illness)
  else if key == "menstrual_cycle_phase" then
    some (.enumV cs.menstrual_cycle_phase)
  else if key == "activity_log" then
    some ((cs.activity_log.map (fun _ => objTag "ActivityLog")).getD .none)
  else if key == "strava_status" then
    some ((cs.strava_status.map
      (fun _ => objTag "StravaIntegrationStatus")).getD .none)
  else Option.none

/-- MethodologyValidator._get_user_value: key lookup first in
`current_state`, then the `weeks_to_race` special case on goals (with
Python truthiness), else `None`. -/
def getUserValue (key : String) (p : UserProfile) : PyVal :=
  match currentStateAttr p.current_state key with
  | some v => v
  | Option.none =>
    if key == "weeks_to_race" then
      match p.goals.weeks_to_race with
      | some n => if n ≠ 0 then .int n else .none
      | Option.none => .none
    else .none

/-- MethodologyValidator._evaluate_validation_rule: parses and evaluates a
rule expression against the observed value, returning (passed, threshold);
branch order and the fall-through fail-closed default follow the source.
Python exceptions (bad float literals, comparisons on non-numeric values)
surface as `.error`. -/
def evaluateValidationRule (rule0 : String) (userValue : PyVal) :
    Except PyErr (Bool × Option Thresh) :=
  let rule := pyReplace rule0 "user." ""
  let leParts := pySplitOn rule "<="
  if leParts.length == 3 then do
    let lower ← floatE (pyStrip (leParts.getD 0 ""))
    let upper ← floatE (pyStrip (leParts.getD 2 ""))
    let passed ←
      if userValue = .none then pure false
      else do
        let q ← asNum userValue
        pure (decide (lower ≤ q ∧ q ≤ upper))
    let lo := floatRepr lower
    let hi := floatRepr upper
    pure (passed, some (.range (lo ++ "-" ++ hi)))
  else if containsSub rule ">=" then do
    let threshold ← floatE (pyStrip ((pySplitOn rule ">=").getD 1 ""))
    let passed ←
      if userValue = .none then pure false
      else do
        let q ← asNum userValue
        pure (decide (threshold ≤ q))
    pure (passed, some (.scalar (.num threshold)))
  else if containsSub rule "==" then
    if containsSub (pyLower rule) "false" then
      .ok (pyEq userValue (.bool false), some (.scalar (.bool false)))
    else if containsSub (pyLower rule) "true" then
      .ok (pyEq userValue (.bool true), some (.scalar (.bool true)))
    else
      let threshold := stripChars (pyStrip ((pySplitOn rule "==").getD 1 "")) quoteChars
      .ok (pyStr userValue == threshold, some (.scalar (.str threshold)))
  else if containsSub rule " in " then
    let listStr := pyStrip ((pySplitOn rule " in ").getD 1 "")
    match parseLiteralList listStr with
    | some threshold =>
        let userVal :=
          match userValue with
          | .enumV v => .str v
          | x => x
        .ok (threshold.any (fun e => pyEq userVal e), some (.list threshold))
    | Option.none => .ok (false, Option.none)
  else if containsSub rule "<=" then do
    let threshold ← floatE (pyStrip ((pySplitOn rule "<=").getD 1 ""))
    let passed ←
      if userValue = .none then pure false
      else do
        let q ← asNum userValue
        pure (decide (q ≤ threshold))
    pure (passed, some (.scalar (.num threshold)))
  else
    .ok (false, Option.none)

/-- Lazy short-circuiting `any(...)` over a fallible predicate, mirroring
Python's generator evaluation inside `any`. -/
def anyExcept (f : α → Except PyErr Bool) : List α → Except PyErr Bool
  | [] => .ok false
  | a :: rest => do
    let b ← f a
    if b then .ok true else anyExcept f rest

/-- MethodologyValidator._evaluate_threshold on an expression containing no
`" OR "`; the expression is already stripped. -/
def evaluateThresholdSimple (e : String) (userValue : PyVal) :
    Except PyErr Bool :=
  if pyLower e == "true" then .ok (pyEq userValue (.bool true))
  else if pyLower e == "false" then .ok (pyEq userValue (.bool false))
  else if pyStarts e "< " then do
    let threshold ← floatE (pyStrip (sDrop e 2))
    if userValue = .none then pure false
    else do
      let q ← asNum userValue
      pure (decide (q < threshold))
  else if pyStarts e "<= " then do
    let threshold ← floatE (pyStrip (sDrop e 3))
    if userValue = .none then pure false
    else do
      let q ← asNum userValue
      pure (decide (q ≤ threshold))
  else if pyStarts e "> " then do
    let threshold ← floatE (pyStrip (sDrop e 2))
    if userValue = .none then pure false
    else do
      let q ← asNum userValue
      pure (decide (threshold < q))
  else if pyStarts e ">= " then do
    let threshold ← floatE (pyStrip (sDrop e 3))
    if userValue = .none then pure false
    else do
      let q ← asNum userValue
      pure (decide (threshold ≤ q))
  else if pyStarts e "== " then
    let target := stripChars (pyStrip (sDrop e 3)) quoteChars
    .ok (pyStr userValue == target)
  else .ok false

/-- MethodologyValidator._evaluate_threshold.  The source strips the
expression, splits on `" OR "` and recurses on each stripped part; the
parts of the split cannot themselves contain `" OR "`, so the recursive
calls all take the simple path — the recursion is unrolled accordingly. -/
def evaluateThreshold (thresholdExpr : String) (userValue : PyVal) :
    Except PyErr Bool :=
  let e := pyStrip thresholdExpr
  let parts := pySplitOn e " OR "
  if parts.length == 1 then evaluateThresholdSimple e userValue
  else anyExcept (fun part => evaluateThresholdSimple (pyStrip part) userValue)
    parts

/-- MethodologyValidator._evaluate_assumption. -/
def evaluateAssumption (m : MethodologyModelCard) (assumptionKey : String)
    (p : UserProfile) : Except PyErr AssumptionCheck :=
  match m.assumptions.find? (fun a => a.key == assumptionKey) with
  | Option.none =>
      .ok { assumption_key := assumptionKey
            passed := false
            user_value := .none
            threshold := Option.none
            reasoning := "Unknown assumption key: " ++ assumptionKey }
  | some a => do
      let userValue := getUserValue assumptionKey p
      let (passed, threshold) ← evaluateValidationRule a.validation_rule userValue
      let reasoning :=
        if passed then
          a.expectation ++ " - Satisfied. " ++ a.reasoning_justification
        else
          a.expectation ++ " - NOT satisfied. " ++ a.reasoning_justification
      .ok { assumption_key := assumptionKey
            passed := passed
            user_value := userValue
            threshold := threshold
            reasoning := reasoning }

/-- MethodologyValidator._check_assumptions: every assumption is checked,
in order. -/
def checkAssumptions (m : MethodologyModelCard) (p : UserProfile) :
    Except PyErr (List AssumptionCheck) :=
  m.assumptions.mapM (fun a => evaluateAssumption m a.key p)

/-- MethodologyValidator._evaluate_safety_gate: `None` when the gate is not
triggered, the violation record when it is. -/
def evaluateSafetyGate (m : MethodologyModelCard) (c : ExclusionCriterion)
    (p : UserProfile) : Except PyErr (Option GateViolation) := do
  let userValue := getUserValue c.condition p
  let triggered ← evaluateThreshold c.threshold userValue
  if !triggered then
    .ok Option.none
  else
    let assumption := m.assumptions.find? (fun a => a.key == c.condition)
    .ok (some
      { condition := c.condition
        threshold := c.threshold
        severity := c.severity
        bridge := c.bridge_action
        assumption_expectation := assumption.map (fun a => a.expectation)
        reasoning_justification :=
          assumption.map (fun a => a.reasoning_justification) })

/-- MethodologyValidator._check_safety_gates: evaluates every criterion and
sorts the violations blocking-first.  Python's stable sort by the
two-valued key `0/1` is exactly the blocking-then-warning partition in
original order. -/
def checkSafetyGates (m : MethodologyModelCard) (p : UserProfile) :
    Except PyErr (List GateViolation) := do
  let results ← m.safety_gates.exclusion_criteria.mapM
    (fun c => evaluateSafetyGate m c p)
  let violations := results.filterMap id
  .ok (violations.filter (fun v => v.severity == .blocking) ++
       violations.filter (fun v => v.severity == .warning))

/-- MethodologyValidator._build_refusal_response. -/
def buildRefusalResponse (violations : List GateViolation) : RefusalResponse :=
  let blocking := violations.filter (fun v => v.severity == .blocking)
  let warningV := violations.filter (fun v => v.severity == .warning)
  let status := if !blocking.isEmpty then "refused" else "warning"
  let nb := natToDigits blocking.length
  let nw := natToDigits warningV.length
  let message :=
    if !blocking.isEmpty then
      "⛔ Cannot generate training plan - " ++ nb ++ " blocking condition(s) detected"
    else
      "⚠️ Plan can proceed with " ++ nw ++ " warning(s)"
  { status := status
    violations := violations
    reasoning_trace_id := Option.none
    message := some message }

/-- MethodologyValidator.validate: checks all assumptions, evaluates all
gates, and derives the verdict from the blocking/warning partition. -/
def validate (m : MethodologyModelCard) (p : UserProfile) :
    Except PyErr ValidationResult :=
  match checkAssumptions m p with
  | .error e => .error e
  | .ok checks =>
    match checkSafetyGates m p with
    | .error e => .error e
    | .ok violations =>
      let blockingViolations := violations.filter (fun v => v.severity == .blocking)
      let warningViolations := violations.filter (fun v => v.severity == .warning)
      let trace : ReasoningTrace :=
        { methodology_id := m.id
          athlete_id := p.athlete_id
          checks := checks
          safety_gates := violations
          result := "approved"
          fragility_score := Option.none }
      if !blockingViolations.isEmpty then
        .ok { approved := false
              refusal_response := some (buildRefusalResponse violations)
              reasoning_trace := { trace with result := "refused" }
              warnings := [] }
      else if !warningViolations.isEmpty then
        .ok { approved := true
              refusal_response := Option.none
              reasoning_trace := { trace with result := "warning" }
              warnings := warningViolations.map
                (fun v => "⚠️ " ++ v.condition ++ ": " ++ v.bridge) }
      else
        .ok { approved := true
              refusal_response := Option.none
              reasoning_trace := { trace with result := "approved" }
              warnings := [] }

/-! ## Fragility scorer (src/fragility.py, FragilityCalculator) -/

/-- Result of a fragility calculation (fragility.FragilityResult): a score
with its per-factor weighted breakdown, interpretation and
recommendations. -/
structure FragilityResult where
  score : ℚ
  breakdown : List (String × ℚ)
  interpretation : String
  recommendations : List String
deriving DecidableEq, Repr

/-- Python `x or d` on an optional natural (`None` and `0` are falsy). -/
def pyOrNat (o : Option ℕ) (d : ℕ) : ℕ :=
  match o with
  | Option.none => d
  | some n => if n = 0 then d else n

/-- FragilityCalculator._calculate_sleep_deviation_penalty as a function of
the sleep hours: no penalty at or above the 8.0h ideal, linear between the
7.0h minimum and the ideal, base-plus-quadratic (capped at 1.0) below the
minimum. -/
def calcSleepDeviationPenalty (sleep_hours : ℚ) : ℚ :=
  let ideal_sleep : ℚ := 8
  let minimum_sleep : ℚ := 7
  if ideal_sleep ≤ sleep_hours then 0
  else if minimum_sleep ≤ sleep_hours then
    (ideal_sleep - sleep_hours) / ideal_sleep
  else
    let base_penalty := (ideal_sleep - minimum_sleep) / ideal_sleep
    let additional_penalty :=
      ((minimum_sleep - sleep_hours) / minimum_sleep) ^ 2
    min 1 (base_penalty + additional_penalty)

/-- FragilityCalculator._calculate_stress_multiplier_penalty. -/
def calcStressMultiplierPenalty (stress_level : StressLevel) : ℚ :=
  match stress_level with
  | .low => 0
  | .moderate => 3/10
  | .high => 1

/-- FragilityCalculator._calculate_volume_variance_penalty: out-of-range
volume penalty plus half-weighted consistency penalty, capped at 1.0. -/
def calcVolumeVariancePenalty (volume_hours : ℚ)
    (volume_consistency_weeks : Option ℕ) : ℚ :=
  let consistency_weeks : ℕ := volume_consistency_weeks.getD 0
  let min_volume : ℚ := 6
  let max_volume : ℚ := 20
  let rangePenalty : ℚ :=
    if volume_hours < min_volume then (min_volume - volume_hours) / min_volume
    else if max_volume < volume_hours then (volume_hours - max_volume) / max_volume
    else 0
  let consistencyPenalty : ℚ :=
    if consistency_weeks < 4 then
      ((4 - (consistency_weeks : ℚ)) / 4) * (1/2)
    else 0
  min 1 (rangePenalty + consistencyPenalty)

/-- FragilityCalculator._calculate_intensity_frequency_penalty: timeline
tier, then HRV multiplier, capped at 1.0. -/
def calcIntensityFrequencyPenalty (weeks_to_race_opt : Option ℕ)
    (hrv_trend : HRVTrend) : ℚ :=
  let weeks_to_race := pyOrNat weeks_to_race_opt 12
  let base : ℚ :=
    if weeks_to_race ≤ 4 then 8/10
    else if weeks_to_race ≤ 8 then 4/10
    else if weeks_to_race ≤ 12 then 2/10
    else 1/10
  let adjusted : ℚ :=
    if hrv_trend = .decreasing then base * (3/2)
    else if hrv_trend = .increasing then base * (7/10)
    else base
  min 1 adjusted

/-- FragilityCalculator._calculate_recovery_quality_penalty: 70/30 blend of
the HRV penalty and the illness penalty, short-circuiting to 1.0 when HRV
is decreasing and illness is present. -/
def calcRecoveryQualityPenalty (hrv_trend : HRVTrend)
    (recent_illness : Bool) : ℚ :=
  let hrv_penalty : ℚ :=
    match hrv_trend with
    | .increasing => 0
    | .stable => 3/10
    | .decreasing => 1
    | .unknown => 1/2
  let illness_penalty : ℚ := if recent_illness then 1 else 0
  if hrv_trend = .decreasing ∧ recent_illness then 1
  else min 1 (hrv_penalty * (7/10) + illness_penalty * (3/10))

/-- FragilityCalculator._interpret_score. -/
def interpretScore (score : ℚ) : String :=
  if score < 4/10 then "Low Risk"
  else if score < 6/10 then "Moderate Risk"
  else if score < 8/10 then "High Risk"
  else "Critical Risk"

/-- FragilityCalculator._generate_recommendations, driven by the unweighted
penalties; float interpolations use one decimal place as in the source's
`:.1f`. -/
def generateRecommendations (p : UserProfile) (sleepP stressP volumeP
    intensityP recoveryP : ℚ) : List String :=
  let cs := p.current_state
  let sleepRecs : List String :=
    if 2/10 < sleepP then
      let shown := formatFixed cs.sleep_hours 1
      if cs.sleep_hours < 7 then
        ["Increase sleep to 7.5+ hours per night (current: " ++ shown ++
         " hrs). Sleep is critical for recovery and adaptation."]
      else
        ["Optimize sleep to 8+ hours per night (current: " ++ shown ++
         " hrs) to reduce fragility."]
    else []
  let stressRecs : List String :=
    if 2/10 < stressP then
      ["Manage life stress through relaxation techniques, time management, or workload reduction (current: "
        ++ cs.stress_level.value ++ "). High stress impairs recovery."]
    else []
  let volumeRecs : List String :=
    if 2/10 < volumeP then
      let shown := formatFixed cs.weekly_volume_hours 1
      let consistency_weeks := cs.volume_consistency_weeks.getD 0
      let cw := natToDigits consistency_weeks
      (if cs.weekly_volume_hours < 6 then
        ["Gradually increase training volume to at least 6 hours per week (current: "
          ++ shown ++ " hrs)."]
      else if 20 < cs.weekly_volume_hours then
        ["Reduce training volume below 20 hours per week (current: " ++ shown
          ++ " hrs) to avoid overtraining."]
      else []) ++
      (if consistency_weeks < 4 then
        ["Maintain consistent volume for at least 4 consecutive weeks (current: "
          ++ cw ++ " weeks) before increasing intensity."]
      else [])
    else []
  let intensityRecs : List String :=
    if 4/10 < intensityP then
      let weeks_to_race := pyOrNat p.goals.weeks_to_race 12
      let wr := natToDigits weeks_to_race
      if weeks_to_race ≤ 4 then
        ["Very short timeline to race (" ++ wr ++
         " weeks). Consider extending preparation period or reducing race expectations to manage intensity pressure."]
      else []
    else []
  let recoveryRecs : List String :=
    if 4/10 < recoveryP then
      (if cs.recent_illness then
        ["Recent illness detected. Extend recovery period before resuming high-intensity training."]
      else []) ++
      (if cs.hrv_trend = .decreasing then
        ["HRV trend is decreasing, indicating poor recovery. Add extra rest days and reduce training load until HRV stabilizes."]
      else if cs.hrv_trend = .unknown then
        ["Consider tracking HRV (Heart Rate Variability) to monitor recovery and optimize training load."]
      else [])
    else []
  let recommendations :=
    sleepRecs ++ stressRecs ++ volumeRecs ++ intensityRecs ++ recoveryRecs
  if recommendations.isEmpty then
    ["Current fragility is low. Continue maintaining good sleep, managing stress, and monitoring recovery metrics."]
  else recommendations

/-- FragilityCalculator.calculate: weighted sum of the five penalties over
the base fragility, clamped to [0, 1].  When the methodology card carries
no weights dict (`fragility_calculation_weights` is `None`), the source's
`self.weights.get(...)` raises `AttributeError`. -/
def fragilityCalculate (m : MethodologyModelCard) (p : UserProfile) :
    Except PyErr FragilityResult :=
  match m.risk_profile.fragility_calculation_weights with
  | Option.none =>
      .error (.attributeError "'NoneType' object has no attribute 'get'")
  | some weights =>
    let cs := p.current_state
    let sleepP := calcSleepDeviationPenalty cs.sleep_hours
    let stressP := calcStressMultiplierPenalty cs.stress_level
    let volumeP :=
      calcVolumeVariancePenalty cs.weekly_volume_hours cs.volume_consistency_weeks
    let intensityP :=
      calcIntensityFrequencyPenalty p.goals.weeks_to_race cs.hrv_trend
    let recoveryP := calcRecoveryQualityPenalty cs.hrv_trend cs.recent_illness
    let penalties : List (String × ℚ) :=
      [("sleep_deviation", sleepP),
       ("stress_multiplier", stressP),
       ("volume_variance", volumeP),
       ("intensity_frequency", intensityP),
       ("recovery_quality", recoveryP)]
    let breakdown := penalties.map
      (fun kv => (kv.1, kv.2 * weightsGet weights kv.1))
    let total_penalty := (breakdown.map (fun kv => kv.2)).sum
    let final_score :=
      max 0 (min 1 (m.risk_profile.fragility_score + total_penalty))
    .ok { score := final_score
          breakdown := breakdown
          interpretation := interpretScore final_score
          recommendations :=
            generateRecommendations p sleepP stressP volumeP intensityP recoveryP }

/-! ## Plan schemas (src/plan_schemas.py); pydantic model construction with
field validators becomes smart constructors returning `Except`. -/

/-- Training intensity zones (plan_schemas.IntensityZone). -/
inductive IntensityZone where
  | active_recovery
  | endurance
  | tempo
  | threshold
  | vo2max
  | anaerobic
  | sprint
  | rest
deriving DecidableEq, Repr

/-- Underlying string value of an intensity zone. -/
def IntensityZone.value : IntensityZone → String
  | .active_recovery => "active_recovery"
  | .endurance => "endurance"
  | .tempo => "tempo"
  | .threshold => "threshold"
  | .vo2max => "vo2max"
  | .anaerobic => "anaerobic"
  | .sprint => "sprint"
  | .rest => "rest"

/-- Zone grouping LOW_INTENSITY_ZONES. -/
def LOW_INTENSITY_ZONES : List IntensityZone := [.active_recovery, .endurance]

/-- Zone grouping THRESHOLD_ZONES. -/
def THRESHOLD_ZONES : List IntensityZone := [.tempo, .threshold]

/-- Zone grouping HIGH_INTENSITY_ZONES. -/
def HIGH_INTENSITY_ZONES : List IntensityZone := [.vo2max, .anaerobic, .sprint]

/-- Types of training session (plan_schemas.SessionType). -/
inductive SessionType where
  | swim
  | bike
  | run
  | brick
  | strength
  | rest
deriving DecidableEq, Repr

/-- Underlying string value of a session type. -/
def SessionType.value : SessionType → String
  | .swim => "swim"
  | .bike => "bike"
  | .run => "run"
  | .brick => "brick"
  | .strength => "strength"
  | .rest => "rest"

/-- Sport-specific zone display strings (plan_schemas.ZONE_DISPLAY /
get_zone_display), falling back to the zone value. -/
def getZoneDisplay (st : SessionType) (z : IntensityZone) : String :=
  match st, z with
  | .bike, .active_recovery => "Z1 (Recovery) - <55% FTP"
  | .bike, .endurance => "Z2 (Endurance) - 56-75% FTP"
  | .bike, .tempo => "Z3 (Tempo) - 76-90% FTP"
  | .bike, .threshold => "Z4 (Threshold) - 91-105% FTP"
  | .bike, .vo2max => "Z5 (VO2max) - 106-120% FTP"
  | .bike, .anaerobic => "Z6 (Anaerobic) - 121-150% FTP"
  | .bike, .sprint => "Z7 (Neuromuscular) - max power"
  | .run, .active_recovery => "Recovery pace - very easy"
  | .run, .endurance => "Easy pace - conversational"
  | .run, .tempo => "Tempo pace - comfortably hard"
  | .run, .threshold => "Threshold pace - sustainable 60min"
  | .run, .vo2max => "VO2max pace - 3-8min race effort"
  | .run, .anaerobic => "Repetition pace - 1-2min max effort"
  | .run, .sprint => "Sprint - all-out strides/sprints"
  | .swim, .active_recovery => "Recovery - easy drill work"
  | .swim, .endurance => "Endurance - CSS pace -10sec/100m"
  | .swim, .tempo => "Tempo - CSS pace -5sec/100m"
  | .swim, .threshold => "Threshold - CSS pace"
  | .swim, .vo2max => "VO2max - CSS pace +5sec/100m"
  | .swim, .anaerobic => "Anaerobic - near max 100m pace"
  | .swim, .sprint => "Sprint - all-out 25m/50m"
  | _, _ => z.value

/-- Training plan phases (plan_schemas.TrainingPhase). -/
inductive TrainingPhase where
  | base
  | build
  | peak
  | taper
deriving DecidableEq, Repr

/-- Underlying string value of a training phase. -/
def TrainingPhase.value : TrainingPhase → String
  | .base => "base"
  | .build => "build"
  | .peak => "peak"
  | .taper => "taper"

/-- Week classification within a mesocycle (plan_schemas.WeekType). -/
inductive WeekType where
  | load
  | recovery
deriving DecidableEq, Repr

/-- One training session (plan_schemas.TrainingSession); the adherence
fields populated only after activity sync are not modelled. -/
structure TrainingSession where
  day : Weekday
  session_type : SessionType
  primary_zone : IntensityZone
  duration_minutes : ℤ
  description : String
  workout_details : Option String
deriving DecidableEq, Repr

/-- Pydantic construction of a TrainingSession: the `gt=0` field bound,
the 5-to-360-minute duration validator, and the `min_length=10`
description bound. -/
def mkTrainingSession (day : Weekday) (session_type : SessionType)
    (primary_zone : IntensityZone) (duration_minutes : ℤ)
    (description : String) (workout_details : Option String) :
    Except PyErr TrainingSession :=
  if ¬ 0 < duration_minutes then
    .error (.valueError "duration_minutes must be greater than 0")
  else if description.length < 10 then
    .error (.valueError "description too short")
  else if duration_minutes < 5 then
    .error (.valueError "Session duration must be at least 5 minutes")
  else if 360 < duration_minutes then
    .error (.valueError "Session duration cannot exceed 6 hours (360 minutes)")
  else
    .ok { day := day
          session_type := session_type
          primary_zone := primary_zone
          duration_minutes := duration_minutes
          description := description
          workout_details := workout_details }

/-- One training week (plan_schemas.TrainingWeek). -/
structure TrainingWeek where
  week_number : ℕ
  phase : TrainingPhase
  total_volume_hours : ℚ
  sessions : List TrainingSession
  week_notes : Option String
  week_type : WeekType
  mesocycle_number : Option ℕ
  mesocycle_week : Option ℕ
  volume_multiplier : ℚ
deriving DecidableEq, Repr

/-- Pydantic construction of a TrainingWeek: field bounds
(`week_number ≥ 1`, volume `> 0`, multiplier in [0, 1.5], mesocycle fields
in range, at least one session), the 1-to-30-hour volume validator, and
the sessions validator (at most 7, no duplicate days). -/
def mkTrainingWeek (week_number : ℕ) (phase : TrainingPhase)
    (total_volume_hours : ℚ) (sessions : List TrainingSession)
    (week_notes : Option String) (week_type : WeekType)
    (mesocycle_number : Option ℕ) (mesocycle_week : Option ℕ)
    (volume_multiplier : ℚ) : Except PyErr TrainingWeek :=
  if week_number < 1 then
    .error (.valueError "week_number must be at least 1")
  else if ¬ 0 < total_volume_hours then
    .error (.valueError "total_volume_hours must be greater than 0")
  else if sessions.length < 1 then
    .error (.valueError "at least one session required")
  else if ¬ (0 ≤ volume_multiplier ∧ volume_multiplier ≤ 3/2) then
    .error (.valueError "volume_multiplier out of range")
  else if ¬ (∀ n ∈ mesocycle_number, 1 ≤ n) then
    .error (.valueError "mesocycle_number must be at least 1")
  else if ¬ (∀ n ∈ mesocycle_week, 1 ≤ n ∧ n ≤ 6) then
    .error (.valueError "mesocycle_week out of range")
  else if total_volume_hours < 1 then
    .error (.valueError "Weekly volume must be at least 1 hour")
  else if 30 < total_volume_hours then
    .error (.valueError "Weekly volume cannot exceed 30 hours")
  else if 7 < sessions.length then
    .error (.valueError "Cannot have more than 7 sessions per week")
  else if ¬ (sessions.map (fun s => s.day)).Nodup then
    .error (.valueError "Cannot have multiple sessions on the same day")
  else
    .ok { week_number := week_number
          phase := phase
          total_volume_hours := total_volume_hours
          sessions := sessions
          week_notes := week_notes
          week_type := week_type
          mesocycle_number := mesocycle_number
          mesocycle_week := mesocycle_week
          volume_multiplier := volume_multiplier }

/-- Intensity distribution summary over a plan
(plan_schemas.IntensityDistributionSummary). -/
structure IntensityDistributionSummary where
  low_intensity_percent : ℚ
  threshold_percent : ℚ
  high_intensity_percent : ℚ
deriving DecidableEq, Repr

/-- Pydantic construction of an IntensityDistributionSummary: the per-field
0-to-100 bounds and the custom `__init__` check that the total is within
[99, 101]. -/
def mkIntensityDistributionSummary (low threshold high : ℚ) :
    Except PyErr IntensityDistributionSummary :=
  if ¬ (0 ≤ low ∧ low ≤ 100 ∧ 0 ≤ threshold ∧ threshold ≤ 100 ∧
        0 ≤ high ∧ high ≤ 100) then
    .error (.valueError "intensity percent out of range")
  else if ¬ (99 ≤ low + threshold + high ∧ low + threshold + high ≤ 101) then
    .error (.valueError "Intensity distribution percentages must sum to 100%")
  else
    .ok { low_intensity_percent := low
          threshold_percent := threshold
          high_intensity_percent := high }

/-- A documented plan-generation decision (plan_schemas.PlanDecision). -/
structure PlanDecision where
  decision_point : String
  input_factors : List String
  reasoning : String
  outcome : String
deriving DecidableEq, Repr

/-- Pydantic construction of a PlanDecision with its minimum-length field
bounds. -/
def mkPlanDecision (decision_point : String) (input_factors : List String)
    (reasoning : String) (outcome : String) : Except PyErr PlanDecision :=
  if decision_point.length < 5 then
    .error (.valueError "decision_point too short")
  else if input_factors.length < 1 then
    .error (.valueError "input_factors must be non-empty")
  else if reasoning.length < 20 then
    .error (.valueError "reasoning too short")
  else if outcome.length < 10 then
    .error (.valueError "outcome too short")
  else
    .ok { decision_point := decision_point
          input_factors := input_factors
          reasoning := reasoning
          outcome := outcome }

/-- A complete training plan (plan_schemas.TrainingPlan); dates are day
numbers and `assumptions_used` keeps the dumped profile. -/
structure TrainingPlan where
  athlete_id : String
  methodology_id : String
  plan_start_date : ℤ
  plan_duration_weeks : ℕ
  race_date : Option ℤ
  race_distance : Option String
  weeks : List TrainingWeek
  fragility_score : ℚ
  intensity_distribution : Option IntensityDistributionSummary
  plan_decisions : List PlanDecision
  assumptions_used : UserProfile
deriving DecidableEq, Repr

/-- The sequential-numbering scan of TrainingPlan.validate_weeks_count:
`week_number` must equal the enumeration index starting at `i`. -/
def weeksSequentialFrom : List TrainingWeek → ℕ → Bool
  | [], _ => true
  | w :: rest, i => w.week_number == i && weeksSequentialFrom rest (i + 1)

/-- Pydantic construction of a TrainingPlan: identifier and range bounds
plus the weeks-count/sequential-numbering validator. -/
def mkTrainingPlan (athlete_id methodology_id : String)
    (plan_start_date : ℤ) (plan_duration_weeks : ℕ) (race_date : Option ℤ)
    (race_distance : Option String) (weeks : List TrainingWeek)
    (fragility_score : ℚ) (plan_decisions : List PlanDecision)
    (assumptions_used : UserProfile) : Except PyErr TrainingPlan :=
  if athlete_id.length < 1 then
    .error (.valueError "athlete_id must be non-empty")
  else if methodology_id.length < 1 then
    .error (.valueError "methodology_id must be non-empty")
  else if ¬ (1 ≤ plan_duration_weeks ∧ plan_duration_weeks ≤ 52) then
    .error (.valueError "plan_duration_weeks out of range")
  else if weeks.length < 1 then
    .error (.valueError "at least one week required")
  else if ¬ (0 ≤ fragility_score ∧ fragility_score ≤ 1) then
    .error (.valueError "fragility_score out of range")
  else if weeks.length ≠ plan_duration_weeks then
    .error (.valueError "Expected plan_duration_weeks weeks")
  else if ¬ weeksSequentialFrom weeks 1 then
    .error (.valueError "Week numbering must be sequential")
  else
    .ok { athlete_id := athlete_id
          methodology_id := methodology_id
          plan_start_date := plan_start_date
          plan_duration_weeks := plan_duration_weeks
          race_date := race_date
          race_distance := race_distance
          weeks := weeks
          fragility_score := fragility_score
          intensity_distribution := Option.none
          plan_decisions := plan_decisions
          assumptions_used := assumptions_used }

/-- TrainingPlan.calculate_intensity_distribution: total minutes per zone
group over the whole plan, as percentages; the all-zero case constructs a
summary whose total fails the 99-to-101 check and therefore raises. -/
def calculateIntensityDistribution (weeks : List TrainingWeek) :
    Except PyErr IntensityDistributionSummary :=
  let allSessions := weeks.flatMap (fun w => w.sessions)
  let minutesIn (zones : List IntensityZone) : ℚ :=
    ((allSessions.filter (fun s =>
        s.primary_zone != .rest && zones.contains s.primary_zone)).map
      (fun s => (s.duration_minutes : ℚ))).sum
  let lowM := minutesIn LOW_INTENSITY_ZONES
  let thrM := minutesIn THRESHOLD_ZONES
  let highM := minutesIn HIGH_INTENSITY_ZONES
  let total := lowM + thrM + highM
  if total = 0 then mkIntensityDistributionSummary 0 0 0
  else
    mkIntensityDistributionSummary (lowM / total * 100) (thrM / total * 100)
      (highM / total * 100)

/-- TrainingPlan.get_average_weekly_volume. -/
def getAverageWeeklyVolume (plan : TrainingPlan) : ℚ :=
  if plan.weeks.isEmpty then 0
  else ((plan.weeks.map (fun w => w.total_volume_hours)).sum) /
    (plan.weeks.length : ℚ)

/-- TrainingPlan.get_phase_breakdown: week counts per phase value.  The
canonical base/build/peak/taper order makes assoc-list equality agree with
Python's order-insensitive dict equality. -/
def getPhaseBreakdown (plan : TrainingPlan) : List (String × ℕ) :=
  let phases := ["base", "build", "peak", "taper"]
  (phases.map (fun ph =>
    (ph, (plan.weeks.filter (fun w => w.phase.value == ph)).length))).filter
    (fun kv => kv.2 ≠ 0)

/-! ## Planner (src/planner.py, TrainingPlanGenerator) -/

/-- Phase week counts as computed by _determine_phases (the reconciliation
step can drive the build count to zero or below, so weeks are integers). -/
structure Phases where
  base : ℤ
  build : ℤ
  peak : ℤ
  taper : ℤ
deriving DecidableEq, Repr

/-- The `date.today()` plan start, modelled as a fixed epoch day (no claim
concerns dates). -/
def todayDate : ℤ := 0

/-- TrainingPlanGenerator._get_periodization_config: the card's config or
the defaults. -/
def getPeriodizationConfig (m : MethodologyModelCard) : PeriodizationConfig :=
  m.periodization_config.getD defaultPeriodizationConfig

/-- TrainingPlanGenerator._get_phase_percentages: bucket selection by plan
length. -/
def getPhasePercentages (m : MethodologyModelCard) (weeks_to_race : ℕ) :
    PhasePercentages :=
  let config := m.phase_distribution_config
  if weeks_to_race ≤ 6 then config.short_plan_phases
  else if weeks_to_race ≤ 12 then config.medium_plan_phases
  else config.long_plan_phases

/-- TrainingPlanGenerator._determine_phases: per-phase
`max(min_weeks, int(total × percent))`, base extension for low volume
consistency (build floored at 1), and build-phase reconciliation to the
exact total.  Comparing a `None` `volume_consistency_weeks` against the
threshold raises `TypeError`, as `None < int` does in Python 3. -/
def determinePhases (m : MethodologyModelCard) (weeks_to_race : ℕ)
    (p : UserProfile) : Except PyErr (Phases × PlanDecision) :=
  let phase_config := getPhasePercentages m weeks_to_race
  let W : ℚ := (weeks_to_race : ℚ)
  let base0 : ℤ :=
    max (phase_config.min_base_weeks : ℤ) (pyTrunc (W * phase_config.base_percent))
  let build0 : ℤ :=
    max (phase_config.min_build_weeks : ℤ) (pyTrunc (W * phase_config.build_percent))
  let peak0 : ℤ :=
    max (phase_config.min_peak_weeks : ℤ) (pyTrunc (W * phase_config.peak_percent))
  let taper0 : ℤ :=
    max (phase_config.min_taper_weeks : ℤ) (pyTrunc (W * phase_config.taper_percent))
  match p.current_state.volume_consistency_weeks with
  | Option.none =>
      .error (.typeError
        "'<' not supported between instances of 'NoneType' and 'int'")
  | some volume_consistency =>
    let consistency_threshold :=
      m.phase_distribution_config.volume_consistency_threshold
    let extension_weeks : ℤ := m.phase_distribution_config.base_extension_weeks
    let base1 :=
      if volume_consistency < consistency_threshold then
        base0 + extension_weeks
      else base0
    let build1 :=
      if volume_consistency < consistency_threshold then
        max 1 (build0 - extension_weeks)
      else build0
    let total_assigned := base1 + build1 + peak0 + taper0
    let build2 :=
      if total_assigned ≠ (weeks_to_race : ℤ) then
        build1 + ((weeks_to_race : ℤ) - total_assigned)
      else build1
    let phases : Phases :=
      { base := base1, build := build2, peak := peak0, taper := taper0 }
    let wtr := natToDigits weeks_to_race
    let vc := natToDigits volume_consistency
    let reasoning :=
      "Allocated " ++ wtr ++ " weeks across phases based on timeline. " ++
      (if volume_consistency < 4 then
        "Extended base phase due to low volume consistency (<4 weeks)."
      else "Standard phase distribution for well-established base.")
    let outcome :=
      intToDecimal base1 ++ "wk base, " ++ intToDecimal build2 ++ "wk build, " ++
      intToDecimal peak0 ++ "wk peak, " ++ intToDecimal taper0 ++ "wk taper"
    match mkPlanDecision "Training Phase Distribution"
      ["weeks_to_race=" ++ wtr, "volume_consistency_weeks=" ++ vc]
      reasoning outcome with
    | .error e => .error e
    | .ok d => .ok (phases, d)

/-- TrainingPlanGenerator._get_phase_for_week. -/
def getPhaseForWeek (week_number : ℕ) (phases : Phases) : TrainingPhase :=
  let base_end := phases.base
  let build_end := base_end + phases.build
  let peak_end := build_end + phases.peak
  if (week_number : ℤ) ≤ base_end then .base
  else if (week_number : ℤ) ≤ build_end then .build
  else if (week_number : ℤ) ≤ peak_end then .peak
  else .taper

/-- TrainingPlanGenerator._determine_hi_frequency: fragility tiers map to
3/2/1 weekly high-intensity sessions. -/
def determineHiFrequency (fragility_score : ℚ) (weeks_to_race : ℕ) :
    Except PyErr (ℕ × PlanDecision) :=
  let (hi_frequency, risk_level) : ℕ × String :=
    if fragility_score < 4/10 then (3, "low")
    else if fragility_score < 6/10 then (2, "moderate")
    else (1, "high")
  let fs := formatFixed fragility_score 2
  let hf := natToDigits hi_frequency
  let reasoning :=
    "F-Score of " ++ fs ++ " indicates " ++ risk_level ++ " fragility. " ++
    (if hi_frequency == 3 then
      "Can safely program standard 3 HI sessions per week."
    else
      "Reducing HI frequency to " ++ hf ++
      "/week to preserve recovery capacity and minimize injury risk.")
  match mkPlanDecision "High-Intensity Session Frequency"
    ["fragility_score=" ++ fs, "weeks_to_race=" ++ natToDigits weeks_to_race]
    reasoning
    (hf ++ " high-intensity sessions per week") with
  | .error e => .error e
  | .ok d => .ok (hi_frequency, d)

/-- TrainingPlanGenerator._determine_load_recovery_ratio: the
high-fragility ratio when fragility exceeds the threshold or the athlete
is a beginner, else the default ratio. -/
def determineLoadRecoveryRatio (m : MethodologyModelCard)
    (fragility_score : ℚ) (p : UserProfile) :
    Except PyErr ((ℕ × ℕ) × PlanDecision) :=
  let config := getPeriodizationConfig m
  let high_fragility := config.fragility_threshold < fragility_score
  let years_training : ℚ :=
    match p.training_history with
    | some th => (th.years_training).getD 0
    | Option.none => 0
  let beginner := years_training < config.experience_threshold_years
  let (rule, reason) :=
    if high_fragility ∨ beginner then
      (config.high_fragility_rule,
        if high_fragility ∧ beginner then "high fragility AND beginner (<2 years)"
        else if high_fragility then
          "high fragility (>" ++ floatRepr config.fragility_threshold ++ ")"
        else
          "beginner (<" ++ floatRepr config.experience_threshold_years ++
          " years training)")
    else (config.default_rule, "experienced athlete with moderate/low fragility")
  let lw := natToDigits rule.load_weeks
  let rw := natToDigits rule.recovery_weeks
  let ml := natToDigits rule.mesocycle_length
  let reasoning :=
    "Selected " ++ lw ++ ":" ++ rw ++ " ratio due to " ++ reason ++
    ". Mesocycle length: " ++ ml ++
    " weeks. Recovery weeks allow adaptation and prevent overtraining."
  match mkPlanDecision "Load:Recovery Ratio Selection"
    ["fragility_score=" ++ formatFixed fragility_score 2,
     "years_training=" ++ formatFixed years_training 1,
     "fragility_threshold=" ++ floatRepr config.fragility_threshold,
     "experience_threshold=" ++ floatRepr config.experience_threshold_years]
    reasoning
    (lw ++ ":" ++ rw ++ " load:recovery ratio (" ++ ml ++ "-week mesocycles)") with
  | .error e => .error e
  | .ok d => .ok ((rule.load_weeks, rule.recovery_weeks), d)

/-- Per-week metadata produced by _build_mesocycle_structure. -/
structure WeekStruct where
  week_number : ℕ
  week_type : WeekType
  mesocycle_number : Option ℕ
  mesocycle_week : Option ℕ
  phase : TrainingPhase
deriving DecidableEq, Repr

/-- The week-walking loop of _build_mesocycle_structure, carrying the
mesocycle number and position; recursion is on the count of remaining
weeks. -/
def mesoLoop (cfg : PeriodizationConfig) (phases : Phases)
    (load_weeks mesocycle_length : ℕ) (taper_start : ℤ) :
    ℕ → ℕ → ℕ → ℕ → List WeekStruct
  | 0, _, _, _ => []
  | remaining + 1, week_num, mesocycle_num, week_in_mesocycle =>
    let phase := getPhaseForWeek week_num phases
    if phase = .taper then
      { week_number := week_num
        week_type := .load
        mesocycle_number := Option.none
        mesocycle_week := Option.none
        phase := phase } ::
      mesoLoop cfg phases load_weeks mesocycle_length taper_start
        remaining (week_num + 1) mesocycle_num week_in_mesocycle
    else
      let is_recovery0 := load_weeks < week_in_mesocycle
      let is_recovery :=
        if is_recovery0 ∧ cfg.skip_final_mesocycle_recovery then
          if taper_start ≤ (week_num : ℤ) + 1 then false else true
        else is_recovery0
      let ws : WeekStruct :=
        { week_number := week_num
          week_type := if is_recovery then .recovery else .load
          mesocycle_number := some mesocycle_num
          mesocycle_week := some week_in_mesocycle
          phase := phase }
      let wim1 := week_in_mesocycle + 1
      let (wim2, mn2) :=
        if mesocycle_length < wim1 then (1, mesocycle_num + 1)
        else (wim1, mesocycle_num)
      ws :: mesoLoop cfg phases load_weeks mesocycle_length taper_start
        remaining (week_num + 1) mn2 wim2

/-- TrainingPlanGenerator._build_mesocycle_structure: walks weeks 1..N,
excluding taper weeks from mesocycle cycling and optionally converting the
final recovery week before taper into a load week; `max()` over an empty
structure raises as in Python. -/
def buildMesocycleStructure (m : MethodologyModelCard)
    (total_weeks load_weeks recovery_weeks : ℕ) (phases : Phases) :
    Except PyErr (List WeekStruct × PlanDecision) :=
  let config := getPeriodizationConfig m
  let mesocycle_length := load_weeks + recovery_weeks
  let taper_start : ℤ := phases.base + phases.build + phases.peak + 1
  let struct0 := mesoLoop config phases load_weeks mesocycle_length
    taper_start total_weeks 1 1 1
  let recovery_count :=
    (struct0.filter (fun w => w.week_type == .recovery)).length
  let load_count := (struct0.filter (fun w => w.week_type == .load)).length
  if struct0.isEmpty then
    .error (.valueError "max() arg is an empty sequence")
  else
    let total_mesocycles :=
      (struct0.map (fun w => w.mesocycle_number.getD 0)).foldl max 0
    let reasoning :=
      "Built mesocycle structure with " ++ natToDigits total_mesocycles ++
      " mesocycle(s). Recovery weeks strategically placed at end of each mesocycle to allow physiological adaptation and prevent cumulative fatigue."
    match mkPlanDecision "Mesocycle Structure"
      ["total_weeks=" ++ natToDigits total_weeks,
       "mesocycle_length=" ++ natToDigits mesocycle_length,
       "taper_start_week=" ++ intToDecimal taper_start,
       "load_weeks_per_cycle=" ++ natToDigits load_weeks]
      reasoning
      (natToDigits load_count ++ " load weeks, " ++
        natToDigits recovery_count ++ " recovery weeks") with
    | .error e => .error e
    | .ok d => .ok (struct0, d)

/-- TrainingPlanGenerator._calculate_recovery_volume_multiplier:
fragility-interpolated deload between the configured bounds, minus the
phase-specific adjustment, clamped back into the bounds. -/
def calcRecoveryVolumeMultiplier (m : MethodologyModelCard)
    (fragility_score : ℚ) (phase : TrainingPhase) : ℚ :=
  let config := getPeriodizationConfig m
  let rc := config.recovery_week_config
  let base_multiplier := rc.volume_multiplier_max -
    ((rc.volume_multiplier_max - rc.volume_multiplier_min) * fragility_score)
  let phase_adjustment := weightsGet config.phase_deload_adjustments phase.value
  let final_multiplier := base_multiplier - phase_adjustment
  max rc.volume_multiplier_min (min rc.volume_multiplier_max final_multiplier)

/-- TrainingPlanGenerator._generate_week_notes. -/
def generateWeekNotes (m : MethodologyModelCard) (week_type : WeekType)
    (phase : TrainingPhase) (volume_multiplier : ℚ) (ws : WeekStruct) :
    Option String :=
  let config := getPeriodizationConfig m
  if week_type = .recovery then
    let volume_percent := pyTrunc (volume_multiplier * 100)
    some (pyReplace config.recovery_week_config.week_note_template
      "\x7bvolume_percent\x7d" (intToDecimal volume_percent))
  else if phase = .taper then
    some "TAPER WEEK: Prioritize rest and recovery. Maintain intensity but reduce volume significantly."
  else if phase = .peak then
    some "PEAK WEEK: Maximum intensity focus. Ensure adequate recovery between sessions."
  else if ws.mesocycle_week = some 1 then
    let mn := ((ws.mesocycle_number.map natToDigits)).getD "None"
    some ("Mesocycle " ++ mn ++
      " begins. Progressive loading phase - build fitness systematically.")
  else Option.none

/-- TrainingPlanGenerator._get_intensity_targets. -/
def getIntensityTargets (m : MethodologyModelCard)
    (week_volume_minutes : ℚ) : ℚ × ℚ × ℚ :=
  let config := m.intensity_distribution_config
  (week_volume_minutes * config.low_intensity_target,
   week_volume_minutes * config.threshold_intensity_target,
   week_volume_minutes * config.high_intensity_target)

/-- Numeric weekday index used for spacing (the `day_order` dict). -/
def dayOrder : Weekday → ℕ
  | .monday => 0
  | .tuesday => 1
  | .wednesday => 2
  | .thursday => 3
  | .friday => 4
  | .saturday => 5
  | .sunday => 6

/-- Stable insertion of a day into a list sorted by `dayOrder`. -/
def insertByOrder (d : Weekday) : List Weekday → List Weekday
  | [] => [d]
  | x :: xs =>
    if dayOrder d ≤ dayOrder x then d :: x :: xs else x :: insertByOrder d xs

/-- Python `sorted(days, key=day_order)` (stable). -/
def sortByDayOrder (l : List Weekday) : List Weekday :=
  l.foldr insertByOrder []

/-- The greedy spaced selection loop of _select_spaced_hi_days: walk the
sorted days, keeping a day whenever it is at least `min_gap` after the
last kept one, until enough are selected. -/
def spacedPick (min_gap : ℤ) : List Weekday → ℕ → ℤ → List Weekday
  | _, 0, _ => []
  | [], _, _ => []
  | d :: rest, need + 1, last_index =>
    let day_index : ℤ := dayOrder d
    if min_gap ≤ day_index - last_index then
      d :: spacedPick min_gap rest need day_index
    else
      spacedPick min_gap rest (need + 1) last_index

/-- TrainingPlanGenerator._select_spaced_hi_days: mid-week preference for a
single session; otherwise greedy selection at the requested gap, falling
back to a 1-day gap, then to the first N days. -/
def selectSpacedHiDays (available_days : List Weekday)
    (num_hi_sessions : ℕ) (min_gap : ℕ) : List Weekday :=
  if num_hi_sessions = 0 ∨ available_days.isEmpty then []
  else
    let sorted_days := sortByDayOrder available_days
    if num_hi_sessions = 1 then
      match [Weekday.tuesday, Weekday.wednesday, Weekday.thursday].find?
          (fun pref => sorted_days.contains pref) with
      | some pref => [pref]
      | Option.none => sorted_days.take 1
    else
      let selected := spacedPick (min_gap : ℤ) sorted_days num_hi_sessions
        (-(min_gap : ℤ))
      let selected :=
        if selected.length < num_hi_sessions then
          spacedPick 1 sorted_days num_hi_sessions (-1)
        else selected
      if selected.length < num_hi_sessions then
        sorted_days.take num_hi_sessions
      else selected

/-- Default template used only as the unreachable fallback of modular
indexing into a non-empty pool. -/
instance : Inhabited HIWorkoutTemplate :=
  ⟨{ session_type := ""
     primary_zone := ""
     workout_description := ""
     discipline := ""
     recommended_phases := [] }⟩

/-- Python `pool[i % len(pool)]`; the modulo raises ZeroDivisionError on an
empty pool. -/
def idxMod (i : ℕ) (l : List HIWorkoutTemplate) :
    Except PyErr HIWorkoutTemplate :=
  if l.isEmpty then
    .error (.zeroDivisionError "integer division or modulo by zero")
  else .ok (l.getD (i % l.length) default)

/-- Python `pool[i % len(pool)]` for a possibly negative index (Python `%`
is `Int.emod` for a positive divisor). -/
def idxModZ (i : ℤ) (l : List HIWorkoutTemplate) :
    Except PyErr HIWorkoutTemplate :=
  if l.isEmpty then
    .error (.zeroDivisionError "integer division or modulo by zero")
  else .ok (l.getD (i.emod l.length).toNat default)

/-- The ordered-alternation unit of the rep-count regex `(m|min|sec)`:
`m` is tried first, so a leading `m` always matches as the one-character
unit (making the `min` alternative unreachable), else `sec`. -/
def unitMatch : List Char → Option (List Char × List Char)
  | 'm' :: rest => some (['m'], rest)
  | 's' :: 'e' :: 'c' :: rest => some (['s','e','c'], rest)
  | _ => Option.none

/-- Left-to-right, non-overlapping substitution of the
`(\d+)x(\d+)(m|min|sec)` rep pattern, incrementing the leading rep count
by `progression` (re.sub semantics; greedy digit runs followed by a
mandatory literal make the match deterministic).  Recursion is on a fuel
bound of the character count. -/
def repSubAux (progression : ℕ) : ℕ → List Char → List Char
  | 0, cs => cs
  | _ + 1, [] => []
  | fuel + 1, c :: cs =>
    let (d1, rest1) := takeDigits (c :: cs)
    let attempt : Option (List Char × List Char) :=
      if d1.isEmpty then Option.none
      else
        match rest1 with
        | 'x' :: rest2 =>
          let (d2, rest3) := takeDigits rest2
          if d2.isEmpty then Option.none
          else
            match unitMatch rest3 with
            | some (u, rest4) =>
                let new_reps := digitsVal d1 + progression
                some ((natToDigits new_reps).toList ++ 'x' :: (d2 ++ u), rest4)
            | Option.none => Option.none
        | _ => Option.none
    match attempt with
    | some (replaced, rest4) => replaced ++ repSubAux progression fuel rest4
    | Option.none => c :: repSubAux progression fuel cs

/-- TrainingPlanGenerator._apply_workout_progression: in build and peak
phases only, bump `NxDISTANCEunit` rep counts by `(week−1) mod 3` and tag
the progression week. -/
def applyWorkoutProgression (base_description : String) (week_number : ℕ)
    (phase : TrainingPhase) : String :=
  if phase ≠ .build ∧ phase ≠ .peak then base_description
  else
    let progression := (week_number - 1) % 3
    let cs := base_description.toList
    let modified := String.mk (repSubAux progression (cs.length + 1) cs)
    if 0 < progression ∧ modified ≠ base_description then
      modified ++ " (Week " ++ natToDigits ((week_number - 1) % 3 + 1) ++
        " progression)"
    else modified

/-- The template fields flowing out of _get_hi_workout_template. -/
structure WorkoutChoice where
  session_type : String
  primary_zone : String
  workout_description : String
  discipline : String
deriving DecidableEq, Repr

/-- TrainingPlanGenerator._get_hi_workout_template: phase filtering for
the phase_specific strategy, proportional threshold/VO2max allocation by
intensity targets with week rotation, round-robin otherwise, then
progression on the description.  The `random` strategy's `random.choice`
is nondeterministic in the source and is modelled as taking the first
template (no claim depends on which template is chosen). -/
def getHiWorkoutTemplate (m : MethodologyModelCard) (session_index : ℕ)
    (phase : TrainingPhase) (hi_sessions_per_week : ℕ) (week_number : ℕ) :
    Except PyErr WorkoutChoice := do
  let config := m.session_type_config
  let templates0 := config.hi_workout_templates
  let templates :=
    if config.rotation_strategy == "phase_specific" then
      let phase_templates := templates0.filter
        (fun t => t.recommended_phases.contains phase.value)
      if !phase_templates.isEmpty then phase_templates else templates0
    else templates0
  let intensity_config := m.intensity_distribution_config
  let threshold_target := intensity_config.threshold_intensity_target
  let high_target := intensity_config.high_intensity_target
  let template ←
    if 0 < threshold_target ∧ 0 < high_target then do
      let total_intensity := threshold_target + high_target
      let threshold_sessions_target : ℤ :=
        pyRound ((threshold_target / total_intensity) * hi_sessions_per_week)
      let threshold_zones := ["zone_3", "threshold", "tempo"]
      let hi_zones := ["zone_4", "zone_5", "vo2max", "anaerobic", "sprint"]
      let threshold_templates := templates.filter
        (fun t => threshold_zones.contains (pyLower t.primary_zone))
      let hi_templates := templates.filter
        (fun t => hi_zones.contains (pyLower t.primary_zone))
      if (session_index : ℤ) < threshold_sessions_target ∧
          !threshold_templates.isEmpty then
        idxMod (session_index + week_number) threshold_templates
      else if !hi_templates.isEmpty then
        let hi_index : ℤ := (session_index : ℤ) - threshold_sessions_target
        idxModZ (hi_index + week_number) hi_templates
      else
        idxMod (session_index + week_number) templates
    else
      if config.rotation_strategy == "random" then
        match templates.head? with
        | some t => .ok t
        | Option.none => .error (.valueError "Cannot choose from an empty sequence")
      else
        idxMod (session_index + week_number) templates
  let workout_desc :=
    applyWorkoutProgression template.workout_description week_number phase
  .ok { session_type := template.session_type
        primary_zone := template.primary_zone
        workout_description := workout_desc
        discipline := template.discipline }

/-- The `session_type_map.get(..., SessionType.BIKE)` lookup. -/
def sessionTypeOf (s : String) : SessionType :=
  if pyLower s == "run" then .run
  else if pyLower s == "swim" then .swim
  else if pyLower s == "bike" then .bike
  else .bike

/-- The `zone_map.get(..., IntensityZone.VO2MAX)` lookup. -/
def zoneOf (s : String) : IntensityZone :=
  let t := pyLower s
  if t == "zone_3" then .threshold
  else if t == "zone_4" then .vo2max
  else if t == "zone_5" then .anaerobic
  else if t == "threshold" then .threshold
  else if t == "tempo" then .tempo
  else if t == "vo2max" then .vo2max
  else if t == "anaerobic" then .anaerobic
  else if t == "sprint" then .sprint
  else .vo2max

/-- The high-intensity placement loop of _create_session_schedule: one
session per selected day, with template lookup, zone/displayed-label
mapping, and removal of the used day from the remaining pool. -/
def hiLoop (m : MethodologyModelCard) (phase : TrainingPhase)
    (hi_sessions_per_week week_number : ℕ) (intensity_duration_each : ℤ) :
    List (ℕ × Weekday) → List Weekday →
    Except PyErr (List TrainingSession × List Weekday)
  | [], training_days => .ok ([], training_days)
  | (i, day) :: rest, training_days => do
    let workout_template ←
      getHiWorkoutTemplate m i phase hi_sessions_per_week week_number
    let session_type := sessionTypeOf workout_template.session_type
    let primary_zone := zoneOf workout_template.primary_zone
    let zone_display := getZoneDisplay session_type primary_zone
    let intensity_label :=
      if THRESHOLD_ZONES.contains primary_zone then "Threshold"
      else "High-intensity"
    let s ← mkTrainingSession day session_type primary_zone
      intensity_duration_each
      (intensity_label ++ " " ++ session_type.value ++ " - " ++ zone_display)
      (some workout_template.workout_description)
    let training_days := training_days.erase day
    let (others, remaining) ← hiLoop m phase hi_sessions_per_week week_number
      intensity_duration_each rest training_days
    .ok (s :: others, remaining)

/-- The easy-aerobic fill loop of _create_session_schedule: pop days from
the front, choosing the sport by the per-week minimum quotas (2 runs, 2
bikes, 1 swim) and then by fewest sessions (the stable sort of the
rotation list makes run win ties over bike, and bike over swim). -/
def easyLoop (duration_each : ℤ) (zone_displayOf : SessionType → String) :
    ℕ → List Weekday → ℕ → ℕ → ℕ → Except PyErr (List TrainingSession)
  | 0, _, _, _, _ => .ok []
  | _ + 1, [], _, _, _ => .ok []
  | n + 1, day :: rest, runs, bikes, swims => do
    let (session_type, runs', bikes', swims') :=
      if runs < 2 then (SessionType.run, runs + 1, bikes, swims)
      else if bikes < 2 then (SessionType.bike, runs, bikes + 1, swims)
      else if swims < 1 then (SessionType.swim, runs, bikes, swims + 1)
      else if runs ≤ bikes ∧ runs ≤ swims then
        (SessionType.run, runs + 1, bikes, swims)
      else if bikes ≤ swims then (SessionType.bike, runs, bikes + 1, swims)
      else (SessionType.swim, runs, bikes, swims + 1)
    let dd := intToDecimal duration_each
    let s ← mkTrainingSession day session_type .endurance duration_each
      ("Easy aerobic " ++ session_type.value ++ " - " ++ dd ++ "min @ " ++
        zone_displayOf session_type)
      Option.none
    let others ← easyLoop duration_each zone_displayOf n rest runs' bikes' swims'
    .ok (s :: others)

/-- TrainingPlanGenerator._create_session_schedule: long aerobic session on
the preferred day, spaced high-intensity sessions, then easy aerobic fill
with sport quotas. -/
def createSessionSchedule (m : MethodologyModelCard)
    (available_days : List Weekday) (rest_day : Option Weekday)
    (long_workout_day : Option Weekday) (week_volume_hours : ℚ)
    (phase : TrainingPhase) (hi_sessions_per_week : ℕ) (week_number : ℕ) :
    Except PyErr (List TrainingSession) := do
  let week_volume_minutes := week_volume_hours * 60
  let (low_target0, threshold_target, high_target) :=
    getIntensityTargets m week_volume_minutes
  let training_days := available_days.filter (fun d => some d ≠ rest_day)
  let long_workout_sports :=
    [SessionType.bike, SessionType.run, SessionType.bike]
  let long_session_type :=
    long_workout_sports.getD (week_number % long_workout_sports.length) .bike
  let (long_sessions, low_target, training_days) ←
    match long_workout_day with
    | some ld =>
      if training_days.contains ld then do
        let long_duration := pyTrunc (week_volume_minutes * (35/100))
        let zone_display := getZoneDisplay long_session_type .endurance
        let hrs := intToDecimal (Int.fdiv long_duration 60)
        let mins := intToDecimal (Int.emod long_duration 60)
        let s ← mkTrainingSession ld long_session_type .endurance long_duration
          ("Long aerobic " ++ long_session_type.value ++ " - " ++ hrs ++
            "hr " ++ mins ++ "min @ " ++ zone_display)
          Option.none
        pure ([s], low_target0 - (long_duration : ℚ), training_days.erase ld)
      else pure ([], low_target0, training_days)
    | Option.none => pure (([] : List TrainingSession), low_target0, training_days)
  let hi_days := selectSpacedHiDays training_days hi_sessions_per_week 2
  let total_intensity_target := threshold_target + high_target
  let intensity_duration_each : ℤ :=
    if 0 < hi_sessions_per_week then
      pyTrunc (total_intensity_target / (hi_sessions_per_week : ℚ))
    else 0
  let (hi_sessions, training_days) ← hiLoop m phase hi_sessions_per_week
    week_number intensity_duration_each
    (hi_days.enum) training_days
  let sessions := long_sessions ++ hi_sessions
  let remaining_low_intensity : ℤ := pyTrunc low_target
  let sessions_to_add := min training_days.length 3
  if 0 < sessions_to_add then do
    let duration_each := Int.fdiv remaining_low_intensity (sessions_to_add : ℤ)
    let existing_runs :=
      (sessions.filter (fun s => s.session_type == .run)).length
    let existing_bikes :=
      (sessions.filter (fun s => s.session_type == .bike)).length
    let existing_swims :=
      (sessions.filter (fun s => s.session_type == .swim)).length
    let easy ← easyLoop duration_each
      (fun st => getZoneDisplay st .endurance) sessions_to_add training_days
      existing_runs existing_bikes existing_swims
    .ok (sessions ++ easy)
  else
    .ok sessions

/-- TrainingPlanGenerator._get_available_days: all days minus the rest day
(when set), truncated to the available-day count. -/
def getAvailableDays (num_training_days : ℕ) (rest_day : Option Weekday) :
    List Weekday :=
  let all_days : List Weekday :=
    [.monday, .tuesday, .wednesday, .thursday, .friday, .saturday, .sunday]
  let available :=
    match rest_day with
    | some rd => all_days.filter (fun d => d ≠ rd)
    | Option.none => all_days
  available.take num_training_days

/-- TrainingPlanGenerator._generate_week: effective HI count and volume
multiplier by week type and phase, session schedule, notes, and the
TrainingWeek construction.  Reading `constraints` / `preferences` off a
profile in which they are `None` raises `AttributeError` as in Python. -/
def generateWeek (m : MethodologyModelCard) (ws : WeekStruct)
    (p : UserProfile) (fragility_score : ℚ) (hi_sessions_per_week : ℕ)
    (phases : Phases) : Except PyErr TrainingWeek :=
  let week_number := ws.week_number
  let phase := ws.phase
  let base_volume := p.current_state.weekly_volume_hours
  let week_type := ws.week_type
  let config := getPeriodizationConfig m
  let effective_hi_sessions : ℕ :=
    if week_type = .recovery then
      min hi_sessions_per_week config.recovery_week_config.max_hi_sessions
    else hi_sessions_per_week
  let volume_multiplier : ℚ :=
    if week_type = .recovery then
      calcRecoveryVolumeMultiplier m fragility_score phase
    else if phase = .taper then
      let taper_start : ℤ := phases.base + phases.build + phases.peak + 1
      let weeks_into_taper : ℤ := (week_number : ℤ) - taper_start + 1
      let total_taper_weeks := phases.taper
      if weeks_into_taper = total_taper_weeks then 4/10
      else if weeks_into_taper = total_taper_weeks - 1 then 6/10
      else 7/10
    else if phase = .peak then 1
    else if phase = .build then 105/100
    else 1
  let week_volume := base_volume * volume_multiplier
  match p.constraints with
  | Option.none =>
      .error (.attributeError
        "'NoneType' object has no attribute 'available_training_days'")
  | some constraints =>
    match p.preferences with
    | Option.none =>
        .error (.attributeError "'NoneType' object has no attribute 'rest_day'")
    | some prefs =>
      let num_training_days := constraints.available_training_days
      let rest_day := prefs.rest_day
      let long_workout_day := prefs.long_workout_day
      let available_days := getAvailableDays num_training_days rest_day
      match createSessionSchedule m available_days rest_day
        long_workout_day week_volume phase effective_hi_sessions week_number with
      | .error e => .error e
      | .ok sessions =>
        let week_notes := generateWeekNotes m week_type phase volume_multiplier ws
        mkTrainingWeek week_number phase week_volume sessions week_notes week_type
          ws.mesocycle_number ws.mesocycle_week volume_multiplier

/-- The plan generator object (planner.TrainingPlanGenerator): a
methodology plus an approved validation result. -/
structure TrainingPlanGenerator where
  methodology : MethodologyModelCard
  validation_result : ValidationResult
deriving DecidableEq, Repr

/-- TrainingPlanGenerator.__init__: the refused-validation precondition; a
non-approved result raises `ValueError` and no generator exists. -/
def mkTrainingPlanGenerator (m : MethodologyModelCard)
    (v : ValidationResult) : Except PyErr TrainingPlanGenerator :=
  if !v.approved then
    .error (.valueError
      "Cannot generate plan for refused validation. Validation result must be 'approved' or 'approved_with_warnings'.")
  else
    .ok { methodology := m, validation_result := v }

/-- TrainingPlanGenerator.generate: fragility, phases, load:recovery
ratio, mesocycle structure, HI frequency, week-by-week generation, plan
assembly and the intensity-distribution summary. -/
def generate (g : TrainingPlanGenerator) (p : UserProfile) :
    Except PyErr TrainingPlan :=
  let m := g.methodology
  match fragilityCalculate m p with
  | .error e => .error e
  | .ok fragility_result =>
  let weeks_to_race := pyOrNat p.goals.weeks_to_race 12
  match determinePhases m weeks_to_race p with
  | .error e => .error e
  | .ok pd =>
  match determineLoadRecoveryRatio m fragility_result.score p with
  | .error e => .error e
  | .ok rd =>
  match buildMesocycleStructure m weeks_to_race rd.1.1 rd.1.2 pd.1 with
  | .error e => .error e
  | .ok sd =>
  match determineHiFrequency fragility_result.score weeks_to_race with
  | .error e => .error e
  | .ok hd =>
  match sd.1.mapM
      (fun ws => generateWeek m ws p fragility_result.score hd.1 pd.1) with
  | .error e => .error e
  | .ok weeks =>
  match mkTrainingPlan p.athlete_id m.id todayDate weeks_to_race
      p.goals.race_date p.goals.race_distance weeks fragility_result.score
      [pd.2, rd.2, sd.2, hd.2] p with
  | .error e => .error e
  | .ok plan =>
  match calculateIntensityDistribution plan.weeks with
  | .error e => .error e
  | .ok summary => .ok { plan with intensity_distribution := some summary }

/-! ## Sensitivity analyzer (src/sensitivity.py, SensitivityAnalyzer) -/

/-- An attribute value reached by dot-path traversal: either a scalar or
one of the profile's sub-objects. -/
inductive PyObjVal where
  | scalar (v : PyVal)
  | stateObj (c : CurrentState)
  | goalsObj (g : Goals)
  | historyObj (t : TrainingHistory)
  | constraintsObj (c : Constraints)
  | preferencesObj (p : Preferences)
deriving DecidableEq, Repr

/-- Python `getattr(goals, key)` guarded by `hasattr`. -/
def goalsAttr (g : Goals) (key : String) : Option PyVal :=
  if key == "primary_goal" then some (.enumV g.primary_goal)
  else if key == "race_date" then some ((g.race_date.map PyVal.int).getD .none)
  else if key == "race_distance" then
    some ((g.race_distance.map PyVal.enumV).getD .none)
  else if key == "goal_finish_time" then
    some ((g.goal_finish_time.map PyVal.str).getD .none)
  else if key == "weeks_to_race" then
    some ((g.weeks_to_race.map (fun n => PyVal.int n)).getD .none)
  else if key == "priority_level" then some (.enumV g.priority_level)
  else Option.none

/-- Python `getattr(obj, key)` guarded by `hasattr` on any traversable
object; attributes of a scalar (including `None`) are absent. -/
def objAttr (o : PyObjVal) (key : String) : Option PyObjVal :=
  match o with
  | .scalar _ => Option.none
  | .stateObj c => (currentStateAttr c key).map PyObjVal.scalar
  | .goalsObj g => (goalsAttr g key).map PyObjVal.scalar
  | .historyObj t =>
    if key == "years_training" then
      some (.scalar ((t.years_training.map PyVal.num).getD .none))
    else Option.none
  | .constraintsObj c =>
    if key == "available_training_days" then
      some (.scalar (.int c.available_training_days))
    else if key == "max_session_duration_hours" then
      some (.scalar (.num c.max_session_duration_hours))
    else Option.none
  | .preferencesObj pr =>
    if key == "preferred_intensity_distribution" then
      some (.scalar ((pr.preferred_intensity_distribution.map
        PyVal.enumV).getD .none))
    else if key == "long_workout_day" then
      some (.scalar ((pr.long_workout_day.map
        (fun d => PyVal.enumV (dayValue d))).getD .none))
    else if key == "rest_day" then
      some (.scalar ((pr.rest_day.map
        (fun d => PyVal.enumV (dayValue d))).getD .none))
    else Option.none

/-- Python `getattr(profile, key)` guarded by `hasattr`: sub-objects stay
traversable, `None`-valued optional sub-objects become the scalar `None`
(so further traversal fails exactly as `hasattr(None, _)` does). -/
def profileAttr (p : UserProfile) (key : String) : Option PyObjVal :=
  if key == "athlete_id" then some (.scalar (.str p.athlete_id))
  else if key == "profile_date" then some (.scalar (.int p.profile_date))
  else if key == "current_state" then some (.stateObj p.current_state)
  else if key == "training_history" then
    some ((p.training_history.map PyObjVal.historyObj).getD (.scalar .none))
  else if key == "goals" then some (.goalsObj p.goals)
  else if key == "constraints" then
    some ((p.constraints.map PyObjVal.constraintsObj).getD (.scalar .none))
  else if key == "preferences" then
    some ((p.preferences.map PyObjVal.preferencesObj).getD (.scalar .none))
  else if key == "metadata" then some (.scalar .none)
  else Option.none

/-- The traversal loop of SensitivityAnalyzer._get_nested_field over the
remaining path segments. -/
def walkAttrs (path : String) : PyObjVal → List String → Except PyErr PyObjVal
  | o, [] => .ok o
  | o, part :: rest =>
    match objAttr o part with
    | some o' => walkAttrs path o' rest
    | Option.none =>
        .error (.valueError
          ("Invalid path: " ++ path ++ " (failed at '" ++ part ++ "')"))

/-- SensitivityAnalyzer._get_nested_field: dot-path attribute traversal
with an invalid-path error naming the failing segment. -/
def getNestedField (p : UserProfile) (path : String) :
    Except PyErr PyObjVal :=
  match pySplitOn path "." with
  | [] => .ok (.scalar .none)
  | part :: rest =>
    match profileAttr p part with
    | some o => walkAttrs path o rest
    | Option.none =>
        .error (.valueError
          ("Invalid path: " ++ path ++ " (failed at '" ++ part ++ "')"))

/-- Assignment of a scalar to a CurrentState attribute.  Pydantic models
without validate_assignment accept arbitrary values; only type-correct
assignments are representable here, and an unrepresentable one reports
`TypeError` (a modelling restriction — no claim exercises it). -/
def setCurrentStateField (cs : CurrentState) (key : String) (v : PyVal) :
    Except PyErr CurrentState :=
  let bad : Except PyErr CurrentState :=
    .error (.typeError "unrepresentable assignment")
  if key == "sleep_hours" then
    match v.toNum with
    | some q => .ok { cs with sleep_hours := q }
    | Option.none => bad
  else if key == "sleep_consistency" then
    match v with
    | .none => .ok { cs with sleep_consistency := Option.none }
    | _ => match v.toNum with
      | some q => .ok { cs with sleep_consistency := some q }
      | Option.none => bad
  else if key == "injury_status" then
    match v with
    | .bool b => .ok { cs with injury_status := b }
    | _ => bad
  else if key == "injury_details" then
    match v with
    | .none => .ok { cs with injury_details := Option.none }
    | .str s => .ok { cs with injury_details := some s }
    | _ => bad
  else if key == "stress_level" then
    match v with
    | .enumV s | .str s =>
      if s == "low" then .ok { cs with stress_level := .low }
      else if s == "moderate" then .ok { cs with stress_level := .moderate }
      else if s == "high" then .ok { cs with stress_level := .high }
      else bad
    | _ => bad
  else if key == "stress_details" then
    match v with
    | .none => .ok { cs with stress_details := Option.none }
    | .str s => .ok { cs with stress_details := some s }
    | _ => bad
  else if key == "weekly_volume_hours" then
    match v.toNum with
    | some q => .ok { cs with weekly_volume_hours := q }
    | Option.none => bad
  else if key == "volume_consistency_weeks" then
    match v with
    | .none => .ok { cs with volume_consistency_weeks := Option.none }
    | .int n => .ok { cs with volume_consistency_weeks := some n.toNat }
    | _ => bad
  else if key == "resting_heart_rate" then
    match v with
    | .none => .ok { cs with resting_heart_rate := Option.none }
    | .int n => .ok { cs with resting_heart_rate := some n }
    | _ => bad
  else if key == "hrv_trend" then
    match v with
    | .enumV s | .str s =>
      if s == "increasing" then .ok { cs with hrv_trend := .increasing }
      else if s == "stable" then .ok { cs with hrv_trend := .stable }
      else if s == "decreasing" then .ok { cs with hrv_trend := .decreasing }
      else if s == "unknown" then .ok { cs with hrv_trend := .unknown }
      else bad
    | _ => bad
  else if key == "recent_illness" then
    match v with
    | .bool b => .ok { cs with recent_illness := b }
    | _ => bad
  else if key == "menstrual_cycle_phase" then
    match v with
    | .enumV s | .str s => .ok { cs with menstrual_cycle_phase := s }
    | _ => bad
  else
    .error (.valueError "no such field")

/-- Assignment of a scalar to a Goals attribute. -/
def setGoalsField (g : Goals) (key : String) (v : PyVal) :
    Except PyErr Goals :=
  let bad : Except PyErr Goals :=
    .error (.typeError "unrepresentable assignment")
  if key == "primary_goal" then
    match v with
    | .enumV s | .str s => .ok { g with primary_goal := s }
    | _ => bad
  else if key == "race_date" then
    match v with
    | .none => .ok { g with race_date := Option.none }
    | .int n => .ok { g with race_date := some n }
    | _ => bad
  else if key == "race_distance" then
    match v with
    | .none => .ok { g with race_distance := Option.none }
    | .enumV s | .str s => .ok { g with race_distance := some s }
    | _ => bad
  else if key == "goal_finish_time" then
    match v with
    | .none => .ok { g with goal_finish_time := Option.none }
    | .str s => .ok { g with goal_finish_time := some s }
    | _ => bad
  else if key == "weeks_to_race" then
    match v with
    | .none => .ok { g with weeks_to_race := Option.none }
    | .int n => .ok { g with weeks_to_race := some n.toNat }
    | _ => bad
  else if key == "priority_level" then
    match v with
    | .enumV s | .str s => .ok { g with priority_level := s }
    | _ => bad
  else
    .error (.valueError "no such field")

/-- SensitivityAnalyzer._set_nested_field: traverse to the parent of the
target field, then set it; errors name the failing segment exactly as the
source's messages do.  Paths deeper than the profile's two modelled levels
fail the same `hasattr` checks the source performs. -/
def setNestedField (p : UserProfile) (path : String) (v : PyVal) :
    Except PyErr UserProfile :=
  let noField (f : String) : PyErr :=
    .valueError ("Invalid path: " ++ path ++ " (no field '" ++ f ++ "')")
  let failedAt (f : String) : PyErr :=
    .valueError ("Invalid path: " ++ path ++ " (failed at '" ++ f ++ "')")
  match pySplitOn path "." with
  | [f] =>
    match profileAttr p f with
    | Option.none => .error (noField f)
    | some _ =>
      if f == "athlete_id" then
        match v with
        | .str s => .ok { p with athlete_id := s }
        | _ => .error (.typeError "unrepresentable assignment")
      else if f == "profile_date" then
        match v with
        | .int n => .ok { p with profile_date := n }
        | _ => .error (.typeError "unrepresentable assignment")
      else .error (.typeError "unrepresentable assignment")
  | [o, f] =>
    match profileAttr p o with
    | Option.none => .error (failedAt o)
    | some parent =>
      match parent with
      | .stateObj cs => do
        match currentStateAttr cs f with
        | Option.none => .error (noField f)
        | some _ =>
          let cs' ← setCurrentStateField cs f v
          .ok { p with current_state := cs' }
      | .goalsObj g => do
        match goalsAttr g f with
        | Option.none => .error (noField f)
        | some _ =>
          let g' ← setGoalsField g f v
          .ok { p with goals := g' }
      | .historyObj t =>
        if f == "years_training" then
          match v with
          | .none => .ok { p with training_history :=
              (some { t with years_training := Option.none }) }
          | _ => match v.toNum with
            | some q => .ok { p with training_history :=
                (some { t with years_training := some q }) }
            | Option.none => .error (.typeError "unrepresentable assignment")
        else .error (noField f)
      | .constraintsObj c =>
        if f == "available_training_days" then
          match v with
          | .int n => .ok { p with constraints :=
              (some { c with available_training_days := n.toNat }) }
          | _ => .error (.typeError "unrepresentable assignment")
        else if f == "max_session_duration_hours" then
          match v.toNum with
          | some q => .ok { p with constraints :=
              (some { c with max_session_duration_hours := q }) }
          | Option.none => .error (.typeError "unrepresentable assignment")
        else .error (noField f)
      | .preferencesObj pr =>
        let asDay : PyVal → Option Weekday := fun w =>
          match w with
          | .enumV s | .str s => dayOfValue s
          | _ => Option.none
        if f == "long_workout_day" then
          match v, asDay v with
          | .none, _ => .ok { p with preferences :=
              (some { pr with long_workout_day := Option.none }) }
          | _, some d => .ok { p with preferences :=
              (some { pr with long_workout_day := some d }) }
          | _, Option.none => .error (.typeError "unrepresentable assignment")
        else if f == "rest_day" then
          match v, asDay v with
          | .none, _ => .ok { p with preferences :=
              (some { pr with rest_day := Option.none }) }
          | _, some d => .ok { p with preferences :=
              (some { pr with rest_day := some d }) }
          | _, Option.none => .error (.typeError "unrepresentable assignment")
        else if f == "preferred_intensity_distribution" then
          match v with
          | .none => .ok { p with preferences :=
              (some { pr with preferred_intensity_distribution := Option.none }) }
          | .enumV s | .str s => .ok { p with preferences :=
              (some { pr with preferred_intensity_distribution := some s }) }
          | _ => .error (.typeError "unrepresentable assignment")
        else .error (noField f)
      | .scalar _ => .error (noField f)
  | o :: rest =>
    match profileAttr p o with
    | Option.none => .error (failedAt o)
    | some parent =>
      match rest.dropLast with
      | [] => .error (failedAt o)
      | mids =>
        match walkAttrs path parent mids with
        | .error e => .error e
        | .ok _ =>
            .error (noField ((rest.getLast?).getD ""))
  | [] => .error (noField "")

/-- Summary of plan differences (sensitivity.PlanAdjustmentSummary). -/
structure PlanAdjustmentSummary where
  hi_sessions_per_week_delta : Option ℚ
  volume_delta_hours : Option ℚ
  phase_distribution_changed : Bool
  intensity_distribution_delta : Option (List (String × ℚ))
deriving DecidableEq, Repr

/-- Result of one what-if scenario (sensitivity.SensitivityResult). -/
structure SensitivityResult where
  modified_assumption : String
  original_value : PyObjVal
  new_value : PyVal
  original_validation_status : String
  new_validation_status : String
  validation_changed : Bool
  new_violations : Option (List String)
  original_fragility : Option ℚ
  new_fragility : Option ℚ
  fragility_delta : Option ℚ
  plan_adjustments : Option PlanAdjustmentSummary
deriving DecidableEq, Repr

/-- SensitivityAnalyzer._calculate_avg_hi_sessions. -/
def calcAvgHiSessions (plan : TrainingPlan) : ℚ :=
  let total : ℕ := (plan.weeks.map (fun w =>
    (w.sessions.filter (fun s =>
      HIGH_INTENSITY_ZONES.contains s.primary_zone)).length)).sum
  if plan.weeks.isEmpty then 0 else (total : ℚ) / (plan.weeks.length : ℚ)

/-- SensitivityAnalyzer._compare_plans. -/
def comparePlans (baseline_plan new_plan : TrainingPlan) :
    PlanAdjustmentSummary :=
  let hi_delta := calcAvgHiSessions new_plan - calcAvgHiSessions baseline_plan
  let volume_delta :=
    getAverageWeeklyVolume new_plan - getAverageWeeklyVolume baseline_plan
  let phase_changed :=
    getPhaseBreakdown baseline_plan ≠ getPhaseBreakdown new_plan
  let intensity_delta :=
    match baseline_plan.intensity_distribution,
        new_plan.intensity_distribution with
    | some b, some n =>
      some [("low_intensity", n.low_intensity_percent - b.low_intensity_percent),
            ("threshold", n.threshold_percent - b.threshold_percent),
            ("high_intensity",
              n.high_intensity_percent - b.high_intensity_percent)]
    | _, _ => Option.none
  { hi_sessions_per_week_delta :=
      if 1/100 < |hi_delta| then some hi_delta else Option.none
    volume_delta_hours :=
      if 1/10 < |volume_delta| then some volume_delta else Option.none
    phase_distribution_changed := phase_changed
    intensity_distribution_delta := intensity_delta }

/-- The analyzer object (sensitivity.SensitivityAnalyzer): methodology,
baseline profile, baseline validation and optional baseline plan. -/
structure SensitivityAnalyzer where
  methodology : MethodologyModelCard
  baseline_profile : UserProfile
  baseline_validation : ValidationResult
  baseline_plan : Option TrainingPlan
deriving DecidableEq, Repr

/-- The computation performed by SensitivityAnalyzer.modify_assumption:
clone the baseline (a deep copy, hence a functional update of a fresh
value), set the field, re-validate, recompute fragility when approved,
and regenerate/compare the plan when both scenarios are approved. -/
def modifyAssumptionRun (a : SensitivityAnalyzer) (assumption_key : String)
    (new_value : PyVal) : Except PyErr SensitivityResult :=
  let modified_profile0 := a.baseline_profile
  match getNestedField a.baseline_profile assumption_key with
  | .error e => .error e
  | .ok original_value =>
  match setNestedField modified_profile0 assumption_key new_value with
  | .error e => .error e
  | .ok modified_profile =>
  match validate a.methodology modified_profile with
  | .error e => .error e
  | .ok new_validation =>
  let validation_changed :=
    a.baseline_validation.reasoning_trace.result ≠
      new_validation.reasoning_trace.result
  let new_violations :=
    if !new_validation.approved then
      some (new_validation.reasoning_trace.safety_gates.map
        (fun gate => gate.condition))
    else Option.none
  let fragStep : Except PyErr (Option ℚ × Option ℚ × Option ℚ) :=
    if new_validation.approved then
      match fragilityCalculate a.methodology modified_profile with
      | .error e => .error e
      | .ok fragility_result =>
        if a.baseline_validation.approved then
          match a.baseline_validation.reasoning_trace.fragility_score with
          | some s =>
              .ok (some fragility_result.score,
                some (fragility_result.score - s), some s)
          | Option.none =>
            match fragilityCalculate a.methodology a.baseline_profile with
            | .error e => .error e
            | .ok baseline_result =>
                .ok (some fragility_result.score,
                  some (fragility_result.score - baseline_result.score),
                  some baseline_result.score)
        else .ok (some fragility_result.score, Option.none, Option.none)
    else .ok (Option.none, Option.none, Option.none)
  match fragStep with
  | .error e => .error e
  | .ok fr3 =>
  let planStep : Except PyErr (Option PlanAdjustmentSummary) :=
    match a.baseline_plan with
    | some baseline_plan =>
      if new_validation.approved ∧ a.baseline_validation.approved then
        match mkTrainingPlanGenerator a.methodology new_validation with
        | .error e => .error e
        | .ok generator =>
          match generate generator modified_profile with
          | .error e => .error e
          | .ok new_plan => .ok (some (comparePlans baseline_plan new_plan))
      else .ok Option.none
    | Option.none => .ok Option.none
  match planStep with
  | .error e => .error e
  | .ok plan_adjustments =>
    .ok { modified_assumption := assumption_key
          original_value := original_value
          new_value := new_value
          original_validation_status :=
            a.baseline_validation.reasoning_trace.result
          new_validation_status := new_validation.reasoning_trace.result
          validation_changed := validation_changed
          new_violations := new_violations
          original_fragility := fr3.2.2
          new_fragility := fr3.1
          fragility_delta := fr3.2.1
          plan_adjustments := plan_adjustments }

/-- SensitivityAnalyzer.modify_assumption, with the analyzer's state after
the call returned alongside the result: the method reads but never rebinds
`self`'s fields, and all modification happens on the deep copy. -/
def modifyAssumption (a : SensitivityAnalyzer) (assumption_key : String)
    (new_value : PyVal) :
    (Except PyErr SensitivityResult) × SensitivityAnalyzer :=
  (modifyAssumptionRun a assumption_key new_value, a)

/-! ## Concrete instances used as witnesses: a polarized-style methodology
card and representative athlete profiles. -/

/-- Witness methodology: a small polarized card (80/10/10 split, one
assumption per gated field, an injury blocking gate and a sleep warning
gate). -/
def mCard : MethodologyModelCard :=
  { id := "polarized_test"
    name := "Polarized Test"
    version := "1.0.0"
    assumptions :=
      [{ key := "sleep_hours"
         expectation := "Athlete sleeps at least 6.5 hours"
         reasoning_justification := "Sleep is required for recovery"
         criticality := "high"
         validation_rule := "user.sleep_hours >= 6.5" },
       { key := "injury_status"
         expectation := "No active injury"
         reasoning_justification := "Training on an injury is unsafe"
         criticality := "high"
         validation_rule := "user.injury_status == false" }]
    safety_gates :=
      { exclusion_criteria :=
          [{ condition := "injury_status"
             threshold := "true"
             severity := .blocking
             validation_logic := "refuse when injury_status is true"
             bridge_action := "Resolve the injury before training" },
           { condition := "sleep_hours"
             threshold := "< 6.0"
             severity := .warning
             validation_logic := "warn when sleep is below 6 hours"
             bridge_action := "Improve sleep habits" }]
        refusal_bridge_template := "Cannot proceed: \x7bcondition\x7d" }
    risk_profile :=
      { fragility_score := 2/10
        sensitivity_factors := ["sleep_hours", "stress_level"]
        fragility_calculation_weights :=
          some [("sleep_deviation", 1/10), ("stress_multiplier", 1/10),
                ("volume_variance", 1/10), ("intensity_frequency", 1/10),
                ("recovery_quality", 1/10)] }
    intensity_distribution_config :=
      { low_intensity_target := 8/10
        threshold_intensity_target := 1/10
        high_intensity_target := 1/10
        tolerance_percent := 5 }
    session_type_config :=
      { hi_workout_templates :=
          [{ session_type := "run"
             primary_zone := "zone_4"
             workout_description := "6x800m @ Z4 with 2min recovery"
             discipline := "run"
             recommended_phases := ["build", "peak"] },
           { session_type := "bike"
             primary_zone := "zone_3"
             workout_description := "2x20min @ threshold"
             discipline := "bike"
             recommended_phases := ["base", "build", "peak"] }]
        rotation_strategy := "round_robin"
        max_consecutive_same_type := 2 }
    phase_distribution_config :=
      { short_plan_phases :=
          { base_percent := 4/10, build_percent := 3/10
            peak_percent := 2/10, taper_percent := 1/10
            min_base_weeks := 1, min_build_weeks := 1
            min_peak_weeks := 1, min_taper_weeks := 1 }
        medium_plan_phases :=
          { base_percent := 35/100, build_percent := 35/100
            peak_percent := 2/10, taper_percent := 1/10
            min_base_weeks := 1, min_build_weeks := 1
            min_peak_weeks := 1, min_taper_weeks := 1 }
        long_plan_phases :=
          { base_percent := 45/100, build_percent := 3/10
            peak_percent := 15/100, taper_percent := 1/10
            min_base_weeks := 2, min_build_weeks := 2
            min_peak_weeks := 1, min_taper_weeks := 1 }
        volume_consistency_threshold := 4
        base_extension_weeks := 1 }
    periodization_config := Option.none }

/-- Witness profile: a healthy, consistent athlete four weeks from a
race. -/
def pOk : UserProfile :=
  { athlete_id := "athlete_1"
    profile_date := 0
    current_state :=
      { sleep_hours := 15/2
        sleep_consistency := Option.none
        injury_status := false
        injury_details := Option.none
        stress_level := .low
        stress_details := Option.none
        weekly_volume_hours := 8
        volume_consistency_weeks := some 8
        resting_heart_rate := some 50
        hrv_trend := .stable
        recent_illness := false
        menstrual_cycle_phase := "not_applicable"
        activity_log := Option.none
        strava_status := Option.none }
    training_history := some { years_training := some 5 }
    goals :=
      { primary_goal := "race_performance"
        race_date := Option.none
        race_distance := some "olympic"
        goal_finish_time := Option.none
        weeks_to_race := some 4
        priority_level := "B" }
    constraints :=
      some { available_training_days := 5, max_session_duration_hours := 5/2 }
    preferences :=
      some { preferred_intensity_distribution := some "polarized"
             long_workout_day := some .saturday
             rest_day := some .monday } }

/-- Witness profile: `pOk` with an active injury (trips the blocking
gate). -/
def pInjury : UserProfile :=
  { pOk with current_state :=
      { pOk.current_state with
          injury_status := true
          injury_details := some "stress fracture" } }

/-- Witness profile: `pOk` without a volume-consistency figure
(`volume_consistency_weeks` unset). -/
def pNoCons : UserProfile :=
  { pOk with current_state :=
      { pOk.current_state with volume_consistency_weeks := Option.none } }

/-- Witness profile: the spec's adversarial extreme state (sleep 4.0h,
high stress, 30h volume, 1 consistency week, decreasing HRV, recent
illness, 2 weeks to race). -/
def pAdversarial : UserProfile :=
  { pOk with
      current_state :=
        { pOk.current_state with
            sleep_hours := 4
            stress_level := .high
            weekly_volume_hours := 30
            volume_consistency_weeks := some 1
            hrv_trend := .decreasing
            recent_illness := true }
      goals := { pOk.goals with weeks_to_race := some 2 } }

/-- The baseline validation result for `pOk` (evaluated form of
`validate mCard pOk`; the fallback record is unreachable). -/
def vOk : ValidationResult :=
  match validate mCard pOk with
  | .ok r => r
  | .error _ =>
    { approved := false
      refusal_response := Option.none
      reasoning_trace :=
        { methodology_id := ""
          athlete_id := ""
          checks := []
          safety_gates := []
          result := "refused"
          fragility_score := Option.none }
      warnings := [] }

/-- A concrete refused validation result (for the constructor-precondition
witness). -/
def vRefused : ValidationResult :=
  match validate mCard pInjury with
  | .ok r => r
  | .error _ =>
    { approved := false
      refusal_response := Option.none
      reasoning_trace :=
        { methodology_id := ""
          athlete_id := ""
          checks := []
          safety_gates := []
          result := "refused"
          fragility_score := Option.none }
      warnings := [] }

/-- Witness analyzer over the approved baseline, without a baseline plan. -/
def aBase : SensitivityAnalyzer :=
  { methodology := mCard
    baseline_profile := pOk
    baseline_validation := vOk
    baseline_plan := Option.none }


/-- C6 fixture: `mCard` with a medium-plan percentage table (0.3/0.4/0.2/0.1)
on which truncation and banker's rounding of `12 × percent` disagree. -/
def mC6 : MethodologyModelCard :=
  { mCard with phase_distribution_config :=
      { mCard.phase_distribution_config with medium_plan_phases :=
          { base_percent := 3/10, build_percent := 4/10
            peak_percent := 2/10, taper_percent := 1/10
            min_base_weeks := 1, min_build_weeks := 1
            min_peak_weeks := 1, min_taper_weeks := 1 } } }

/-- Modelled from the claim's wording of `_determine_phases`, for comparison
with the source: identical to `determinePhases` except that the initial
per-phase counts use `round(total_weeks × percent)` (Python banker's
rounding, `pyRound`) where the source uses `int(...)` truncation; the
decision record is dropped since the claim speaks only of the allocation. -/
def determinePhasesSpecRound (m : MethodologyModelCard) (weeks_to_race : ℕ)
    (p : UserProfile) : Except PyErr Phases :=
  let phase_config := getPhasePercentages m weeks_to_race
  let W : ℚ := (weeks_to_race : ℚ)
  let base0 : ℤ :=
    max (phase_config.min_base_weeks : ℤ) (pyRound (W * phase_config.base_percent))
  let build0 : ℤ :=
    max (phase_config.min_build_weeks : ℤ) (pyRound (W * phase_config.build_percent))
  let peak0 : ℤ :=
    max (phase_config.min_peak_weeks : ℤ) (pyRound (W * phase_config.peak_percent))
  let taper0 : ℤ :=
    max (phase_config.min_taper_weeks : ℤ) (pyRound (W * phase_config.taper_percent))
  match p.current_state.volume_consistency_weeks with
  | Option.none =>
      .error (.typeError
        "'<' not supported between instances of 'NoneType' and 'int'")
  | some volume_consistency =>
    let consistency_threshold :=
      m.phase_distribution_config.volume_consistency_threshold
    let extension_weeks : ℤ := m.phase_distribution_config.base_extension_weeks
    let base1 :=
      if volume_consistency < consistency_threshold then
        base0 + extension_weeks
      else base0
    let build1 :=
      if volume_consistency < consistency_threshold then
        max 1 (build0 - extension_weeks)
      else build0
    let total_assigned := base1 + build1 + peak0 + taper0
    let build2 :=
      if total_assigned ≠ (weeks_to_race : ℤ) then
        build1 + ((weeks_to_race : ℤ) - total_assigned)
      else build1
    .ok { base := base1, build := build2, peak := peak0, taper := taper0 }

/-! ## Helper lemmas -/

/-- An `isOk` computation carries a value. -/
lemma exists_ok_of_isOk {α : Type _} {o : Except PyErr α}
    (h : o.isOk = true) : ∃ a, o = .ok a := by
  cases o with
  | error e => simp [Except.isOk, Except.toBool] at h
  | ok a => exact ⟨a, rfl⟩

/-- Bind inversion for `Except`. -/
lemma bind_ok_inv {α β : Type _} {x : Except PyErr α}
    {f : α → Except PyErr β} {b : β} (h : (x >>= f) = .ok b) :
    ∃ a, x = .ok a ∧ f a = .ok b := by
  cases x with
  | error e => simp [Bind.bind, Except.bind] at h
  | ok a => exact ⟨a, rfl, by simpa [Bind.bind, Except.bind] using h⟩

/-- Every member of a successfully `mapM`-ed list is a successful image of
a member of the input. -/
lemma mapM_ok_mem {α β : Type _} {f : α → Except PyErr β} :
    ∀ {l : List α} {bs : List β}, l.mapM f = .ok bs →
      ∀ b ∈ bs, ∃ a ∈ l, f a = .ok b := by
  intro l
  induction l with
  | nil =>
    intro bs h b hb
    rw [List.mapM_nil] at h
    simp [pure, Except.pure] at h
    subst h
    simp at hb
  | cons a l ih =>
    intro bs h b hb
    rw [List.mapM_cons] at h
    obtain ⟨b0, hb0, h⟩ := bind_ok_inv h
    obtain ⟨bs0, hbs0, h⟩ := bind_ok_inv h
    simp [pure, Except.pure] at h
    subst h
    rcases List.mem_cons.mp hb with hb | hb
    · exact ⟨a, List.mem_cons_self a l, hb ▸ hb0⟩
    · obtain ⟨a', ha', hfa'⟩ := ih hbs0 b hb
      exact ⟨a', List.mem_cons_of_mem a ha', hfa'⟩

/-- Verdict facts of a returned ValidationResult, keyed on the
blocking/warning filters of its own violation list. -/
lemma validate_ok_inv {m : MethodologyModelCard} {p : UserProfile}
    {r : ValidationResult} (h : validate m p = .ok r) :
    (r.reasoning_trace.safety_gates.filter
        (fun v => v.severity == .blocking) ≠ [] →
      r.approved = false ∧ r.reasoning_trace.result = "refused" ∧
        r.warnings = []) ∧
    (r.reasoning_trace.safety_gates.filter
        (fun v => v.severity == .blocking) = [] →
      r.reasoning_trace.safety_gates.filter
        (fun v => v.severity == .warning) ≠ [] →
      r.approved = true ∧ r.reasoning_trace.result = "warning") ∧
    (r.reasoning_trace.safety_gates.filter
        (fun v => v.severity == .blocking) = [] →
      r.reasoning_trace.safety_gates.filter
        (fun v => v.severity == .warning) = [] →
      r.approved = true ∧ r.reasoning_trace.result = "approved" ∧
        r.warnings = []) := by
  unfold validate at h
  cases hA : checkAssumptions m p with
  | error e => rw [hA] at h; simp at h
  | ok checks =>
    rw [hA] at h
    cases hG : checkSafetyGates m p with
    | error e => rw [hG] at h; simp at h
    | ok violations =>
      rw [hG] at h
      by_cases hb : violations.filter (fun v => v.severity == .blocking) = []
      · by_cases hw : violations.filter (fun v => v.severity == .warning) = []
        · simp [hb, hw] at h
          subst h
          simp [hb, hw]
        · simp [hb, hw] at h
          subst h
          simp [hb, hw]
      · simp [hb] at h
        subst h
        simp [hb]

/-- A returned ValidationResult reads `refused` exactly when it is not
approved. -/
lemma validate_refused_iff {m : MethodologyModelCard} {p : UserProfile}
    {r : ValidationResult} (h : validate m p = .ok r) :
    (r.reasoning_trace.result = "refused" ↔ r.approved = false) := by
  unfold validate at h
  cases hA : checkAssumptions m p with
  | error e => rw [hA] at h; simp at h
  | ok checks =>
    rw [hA] at h
    cases hG : checkSafetyGates m p with
    | error e => rw [hG] at h; simp at h
    | ok violations =>
      rw [hG] at h
      by_cases hb : violations.filter (fun v => v.severity == .blocking) = []
      · by_cases hw : violations.filter (fun v => v.severity == .warning) = []
        · simp [hb, hw] at h; subst h; simp
        · simp [hb, hw] at h; subst h; simp
      · simp [hb] at h; subst h; simp

/-! ## Claim theorems -/

/-- C1: for every methodology configuration and athlete profile, a result
returned by MethodologyValidator.validate has its verdict determined by
the partition of triggered gate violations: any blocking violation forces
`approved = false` and result `refused`; warnings without blocking give
`approved = true` and result `warning`; no violations give
`approved = true`, result `approved`, and an empty warnings list. -/
theorem validator_verdict_partition (m : MethodologyModelCard)
    (p : UserProfile) (r : ValidationResult) (h : validate m p = .ok r) :
    ((∃ v ∈ r.reasoning_trace.safety_gates, v.severity = .blocking) →
      r.approved = false ∧ r.reasoning_trace.result = "refused") ∧
    ((∀ v ∈ r.reasoning_trace.safety_gates, v.severity ≠ .blocking) →
      (∃ v ∈ r.reasoning_trace.safety_gates, v.severity = .warning) →
      r.approved = true ∧ r.reasoning_trace.result = "warning") ∧
    (r.reasoning_trace.safety_gates = [] →
      r.approved = true ∧ r.reasoning_trace.result = "approved" ∧
        r.warnings = []) := by
  obtain ⟨h1, h2, h3⟩ := validate_ok_inv h
  refine ⟨?_, ?_, ?_⟩
  · intro ⟨v, hv, hsev⟩
    have : r.reasoning_trace.safety_gates.filter
        (fun v => v.severity == .blocking) ≠ [] := by
      simp only [ne_eq, List.filter_eq_nil_iff]
      push_neg
      exact ⟨v, hv, by simp [hsev]⟩
    exact ⟨(h1 this).1, (h1 this).2.1⟩
  · intro hall ⟨v, hv, hsev⟩
    have hb : r.reasoning_trace.safety_gates.filter
        (fun v => v.severity == .blocking) = [] := by
      simp only [List.filter_eq_nil_iff]
      intro a ha
      simpa using hall a ha
    have hw : r.reasoning_trace.safety_gates.filter
        (fun v => v.severity == .warning) ≠ [] := by
      simp only [ne_eq, List.filter_eq_nil_iff]
      push_neg
      exact ⟨v, hv, by simp [hsev]⟩
    exact h2 hb hw
  · intro hnil
    exact h3 (by simp [hnil]) (by simp [hnil])

section EvalWitnessesA

attribute [local semireducible] Rat.add Rat.sub Rat.mul Rat.div Rat.neg Rat.inv

/-- Witness for C1: the injured profile trips the blocking injury gate,
so validate returns a refused, non-approved result. -/
theorem validator_verdict_partition_witness :
    ∃ r, validate mCard pInjury = Except.ok r ∧ r.approved = false ∧
      r.reasoning_trace.result = "refused" := by
  have hOk : (validate mCard pInjury).isOk = true := by decide
  obtain ⟨r, hr⟩ := exists_ok_of_isOk hOk
  have hEx : (validate mCard pInjury).map
      (fun r => decide (∃ v ∈ r.reasoning_trace.safety_gates,
        v.severity = Severity.blocking)) = .ok true := by decide
  rw [hr] at hEx
  simp only [Except.map] at hEx
  have hEx' := of_decide_eq_true (Except.ok.inj hEx)
  exact ⟨r, hr, (validator_verdict_partition mCard pInjury r hr).1 hEx'⟩

/-- Shared helper: the fragility calculator succeeds on any profile when
the methodology carries a weights dict, and the clamp bounds the score. -/
lemma fragilityCalculate_ok {m : MethodologyModelCard} {p : UserProfile}
    {w : List (String × ℚ)}
    (h : m.risk_profile.fragility_calculation_weights = some w) :
    ∃ r, fragilityCalculate m p = .ok r ∧ 0 ≤ r.score ∧ r.score ≤ 1 := by
  unfold fragilityCalculate
  rw [h]
  refine ⟨_, rfl, le_max_left 0 _, ?_⟩
  exact max_le (by norm_num) (min_le_left 1 _)

/-- C2: for every athlete profile (adversarial inputs included), the
fragility calculation returns normally — given the weights dict the data
model requires — and the returned score lies in [0, 1]. -/
theorem fragility_total_and_bounded (m : MethodologyModelCard)
    (p : UserProfile) (w : List (String × ℚ))
    (h : m.risk_profile.fragility_calculation_weights = some w) :
    ∃ r, fragilityCalculate m p = .ok r ∧ 0 ≤ r.score ∧ r.score ≤ 1 :=
  fragilityCalculate_ok h

/-- Witness for C2: the spec's adversarial extreme profile, under the
witness methodology; the concrete score is 303/490 ≈ 0.62. -/
theorem fragility_total_and_bounded_witness :
    (∃ r, fragilityCalculate mCard pAdversarial = .ok r ∧
      0 ≤ r.score ∧ r.score ≤ 1) ∧
    (fragilityCalculate mCard pAdversarial).map FragilityResult.score =
      .ok (303/490) :=
  ⟨fragility_total_and_bounded mCard pAdversarial
      [("sleep_deviation", 1/10), ("stress_multiplier", 1/10),
       ("volume_variance", 1/10), ("intensity_frequency", 1/10),
       ("recovery_quality", 1/10)] rfl,
   by decide⟩

/-- C3: constructing the plan generator from a non-approved
ValidationResult raises the refused-validation ValueError, and no
generator object (hence no plan) is ever produced by that call. -/
theorem generator_rejects_refused (m : MethodologyModelCard)
    (v : ValidationResult) (h : v.approved = false) :
    mkTrainingPlanGenerator m v = .error (.valueError
      "Cannot generate plan for refused validation. Validation result must be 'approved' or 'approved_with_warnings'.") ∧
    ∀ g, mkTrainingPlanGenerator m v ≠ .ok g := by
  constructor
  · unfold mkTrainingPlanGenerator
    rw [h]
    simp
  · intro g
    unfold mkTrainingPlanGenerator
    rw [h]
    simp

/-- Witness for C3: the refused validation of the injured profile. -/
theorem generator_rejects_refused_witness :
    vRefused.approved = false ∧
    mkTrainingPlanGenerator mCard vRefused = .error (.valueError
      "Cannot generate plan for refused validation. Validation result must be 'approved' or 'approved_with_warnings'.") := by
  have h : vRefused.approved = false := by decide
  exact ⟨h, (generator_rejects_refused mCard vRefused h).1⟩

end EvalWitnessesA


set_option maxHeartbeats 1000000 in
/-- Field and validator facts of a constructed TrainingWeek. -/
lemma mkTrainingWeek_ok_inv {wn : ℕ} {ph : TrainingPhase} {tv : ℚ}
    {ss : List TrainingSession} {notes : Option String} {wt : WeekType}
    {mn mw : Option ℕ} {vm : ℚ} {w : TrainingWeek}
    (h : mkTrainingWeek wn ph tv ss notes wt mn mw vm = .ok w) :
    w.week_number = wn ∧ w.sessions = ss ∧
      (ss.map (fun s => s.day)).Nodup := by
  unfold mkTrainingWeek at h
  repeat' split at h
  all_goals try exact Except.noConfusion h
  cases h
  rename_i hnodup
  exact ⟨rfl, rfl, not_not.mp hnodup⟩

set_option maxHeartbeats 1000000 in
/-- Field and validator facts of a constructed TrainingPlan. -/
lemma mkTrainingPlan_ok_inv {aid mid : String} {start : ℤ} {dur : ℕ}
    {rd : Option ℤ} {rdist : Option String} {weeks : List TrainingWeek}
    {fs : ℚ} {ds : List PlanDecision} {au : UserProfile}
    {plan : TrainingPlan}
    (h : mkTrainingPlan aid mid start dur rd rdist weeks fs ds au = .ok plan) :
    plan.weeks = weeks ∧ plan.plan_duration_weeks = dur ∧
      weeks.length = dur ∧ weeksSequentialFrom weeks 1 = true := by
  unfold mkTrainingPlan at h
  repeat' split at h
  all_goals try exact Except.noConfusion h
  cases h
  rename_i hlen hseq
  exact ⟨rfl, rfl, not_not.mp hlen, not_not.mp hseq⟩

/-- A passing sequential-numbering scan pins every week number. -/
lemma weeksSequential_get :
    ∀ {ws : List TrainingWeek} {k : ℕ}, weeksSequentialFrom ws k = true →
      ∀ i (hi : i < ws.length), (ws.get ⟨i, hi⟩).week_number = k + i := by
  intro ws
  induction ws with
  | nil => intro k _ i hi; simp at hi
  | cons w rest ih =>
    intro k h i hi
    unfold weeksSequentialFrom at h
    rw [Bool.and_eq_true] at h
    obtain ⟨h1, h2⟩ := h
    cases i with
    | zero => simpa using eq_of_beq h1
    | succ j =>
      have := ih h2 j (by simpa using Nat.lt_of_succ_lt_succ hi)
      simpa [List.get, Nat.add_comm, Nat.add_assoc, Nat.add_left_comm] using this

/-- Transfer of the sequential-numbering fact along a list equation. -/
lemma get_week_number_of_eq {l l' : List TrainingWeek} (h : l = l')
    (hseq : weeksSequentialFrom l' 1 = true) :
    ∀ i (hi : i < l.length), (l.get ⟨i, hi⟩).week_number = i + 1 := by
  subst h
  intro i hi
  rw [weeksSequential_get hseq i hi, Nat.add_comm]

/-- The sessions of a generated week have pairwise-distinct weekdays. -/
lemma generateWeek_ok_nodup {m : MethodologyModelCard} {ws : WeekStruct}
    {p : UserProfile} {fs : ℚ} {hi : ℕ} {phases : Phases} {w : TrainingWeek}
    (h : generateWeek m ws p fs hi phases = .ok w) :
    (w.sessions.map (fun s => s.day)).Nodup := by
  unfold generateWeek at h
  dsimp only [] at h
  split at h
  · exact Except.noConfusion h
  · split at h
    · exact Except.noConfusion h
    · split at h
      · exact Except.noConfusion h
      · obtain ⟨-, hss, hnd⟩ := mkTrainingWeek_ok_inv h
        rw [hss]
        exact hnd

/-- C4: every TrainingPlan returned by generate has exactly
`plan_duration_weeks` weeks, numbered sequentially from 1, and within
every week no two sessions fall on the same weekday. -/
theorem plan_struct_invariants (g : TrainingPlanGenerator) (p : UserProfile)
    (plan : TrainingPlan) (h : generate g p = .ok plan) :
    plan.weeks.length = plan.plan_duration_weeks ∧
    (∀ i (hlt : i < plan.weeks.length),
      (plan.weeks.get ⟨i, hlt⟩).week_number = i + 1) ∧
    (∀ w ∈ plan.weeks, (w.sessions.map (fun s => s.day)).Nodup) := by
  unfold generate at h
  dsimp only [] at h
  split at h
  · exact Except.noConfusion h
  rename_i frag hfrag
  split at h
  · exact Except.noConfusion h
  rename_i pd hpd
  split at h
  · exact Except.noConfusion h
  rename_i rd hrd
  split at h
  · exact Except.noConfusion h
  rename_i sd hsd
  split at h
  · exact Except.noConfusion h
  rename_i hd hhd
  split at h
  · exact Except.noConfusion h
  rename_i weeks hmapM
  split at h
  · exact Except.noConfusion h
  rename_i plan0 hmk
  split at h
  · exact Except.noConfusion h
  rename_i summary hsum
  cases h
  obtain ⟨hw, hdur, hlen, hseq⟩ := mkTrainingPlan_ok_inv hmk
  refine ⟨?_, ?_, ?_⟩
  · show plan0.weeks.length = plan0.plan_duration_weeks
    rw [hw, hdur, hlen]
  · exact get_week_number_of_eq hw hseq
  · intro w hwmem
    have hwmem2 : w ∈ weeks := by rw [← hw]; exact hwmem
    obtain ⟨ws, -, hgw⟩ := mapM_ok_mem hmapM w hwmem2
    exact generateWeek_ok_nodup hgw

section EvalWitnessesB

attribute [local semireducible] Rat.add Rat.sub Rat.mul Rat.div Rat.neg Rat.inv

/-- Witness for C4: a concretely generated 4-week plan satisfies the
structural invariants. -/
theorem plan_struct_invariants_witness :
    ∃ plan, generate { methodology := mCard, validation_result := vOk } pOk =
        .ok plan ∧
      plan.weeks.length = plan.plan_duration_weeks ∧
      ∀ w ∈ plan.weeks, (w.sessions.map (fun s => s.day)).Nodup := by
  have hOk : (generate { methodology := mCard, validation_result := vOk }
      pOk).isOk = true := by decide
  obtain ⟨plan, hp⟩ := exists_ok_of_isOk hOk
  obtain ⟨h1, h2, h3⟩ := plan_struct_invariants _ _ _ hp
  exact ⟨plan, hp, h1, h3⟩

end EvalWitnessesB

/-- The `determine_training_phases` scrutinises `volume_consistency_weeks` with
`<` before any None-guard, so a `None` value raises a `TypeError`. -/
lemma determinePhases_none {m : MethodologyModelCard} {W : ℕ}
    {p : UserProfile} (h : p.current_state.volume_consistency_weeks = Option.none) :
    determinePhases m W p = .error (.typeError
      "'<' not supported between instances of 'NoneType' and 'int'") := by
  unfold determinePhases
  dsimp only []
  rw [h]

section EvalC5

attribute [local semireducible] Rat.add Rat.sub Rat.mul Rat.div Rat.neg Rat.inv

/-- Claim C5 (amended): `generate` is *not* total on approved validation results.
Whenever the methodology supplies fragility weights (so the fragility step
succeeds) but the profile has `volume_consistency_weeks = None`, `generate`
raises a `TypeError` from the unguarded `<` comparison inside
`_determine_training_phases`; on well-formed profiles such as `pOk` it does
succeed. -/
theorem planner_not_total :
    (∀ (g : TrainingPlanGenerator) (p : UserProfile) (w : List (String × ℚ)),
      g.methodology.risk_profile.fragility_calculation_weights = some w →
      p.current_state.volume_consistency_weeks = Option.none →
      generate g p = .error (.typeError
        "'<' not supported between instances of 'NoneType' and 'int'")) ∧
    (∃ plan, generate { methodology := mCard, validation_result := vOk } pOk =
      .ok plan) := by
  constructor
  · intro g p w hw hc
    obtain ⟨fr, hfr, -, -⟩ := fragilityCalculate_ok (m := g.methodology) (p := p) hw
    unfold generate
    dsimp only []
    rw [hfr, determinePhases_none hc]
  · exact exists_ok_of_isOk (by decide)

/-- Claim C5, counterexample to the frozen claim: the approved validation
result `vOk` together with the profile `pNoCons` (identical to `pOk` except
`volume_consistency_weeks = None`) makes `generate` raise a `TypeError`
instead of returning a plan. -/
theorem planner_totality_counterexample :
    generate { methodology := mCard, validation_result := vOk } pNoCons =
      .error (.typeError
        "'<' not supported between instances of 'NoneType' and 'int'") := by
  decide

/-- Witness for `planner_not_total`: its hypotheses hold at
`mCard` / `pNoCons`, and the claimed `TypeError` is produced. -/
theorem planner_not_total_witness :
    mCard.risk_profile.fragility_calculation_weights =
      some [("sleep_deviation", 1/10), ("stress_multiplier", 1/10),
            ("volume_variance", 1/10), ("intensity_frequency", 1/10),
            ("recovery_quality", 1/10)] ∧
    pNoCons.current_state.volume_consistency_weeks = Option.none ∧
    generate { methodology := mCard, validation_result := vOk } pNoCons =
      .error (.typeError
        "'<' not supported between instances of 'NoneType' and 'int'") :=
  ⟨rfl, rfl, planner_not_total.1 _ _ _ rfl rfl⟩

end EvalC5


/-- A PlanDecision construction with all four length bounds met succeeds. -/
lemma mkPlanDecision_ok_of (dp : String) (fs : List String) (r o : String)
    (h1 : 5 ≤ dp.length) (h2 : 1 ≤ fs.length) (h3 : 20 ≤ r.length)
    (h4 : 10 ≤ o.length) :
    mkPlanDecision dp fs r o =
      .ok { decision_point := dp, input_factors := fs,
            reasoning := r, outcome := o } := by
  unfold mkPlanDecision
  rw [if_neg (by omega), if_neg (by omega), if_neg (by omega), if_neg (by omega)]

/-- Claim C6 (amended): with a defined consistency value, `_determine_phases`
succeeds and its base/peak/taper counts follow the claimed shape with
`int(...)` truncation in place of `round(...)`, the base extension applied
when consistency is below threshold, and the build-phase reconciliation
making the four counts sum to the plan length exactly. -/
theorem phase_alloc_formula (m : MethodologyModelCard) (W : ℕ) (p : UserProfile)
    (c : ℕ) (hc : p.current_state.volume_consistency_weeks = some c) :
    ∃ ph d, determinePhases m W p = .ok (ph, d) ∧
      ph.base =
        (if c < m.phase_distribution_config.volume_consistency_threshold then
          max ((getPhasePercentages m W).min_base_weeks : ℤ)
            (pyTrunc ((W : ℚ) * (getPhasePercentages m W).base_percent)) +
            (m.phase_distribution_config.base_extension_weeks : ℤ)
        else
          max ((getPhasePercentages m W).min_base_weeks : ℤ)
            (pyTrunc ((W : ℚ) * (getPhasePercentages m W).base_percent))) ∧
      ph.peak = max ((getPhasePercentages m W).min_peak_weeks : ℤ)
        (pyTrunc ((W : ℚ) * (getPhasePercentages m W).peak_percent)) ∧
      ph.taper = max ((getPhasePercentages m W).min_taper_weeks : ℤ)
        (pyTrunc ((W : ℚ) * (getPhasePercentages m W).taper_percent)) ∧
      ph.base + ph.build + ph.peak + ph.taper = (W : ℤ) := by
  unfold determinePhases
  dsimp only []
  rw [hc]
  dsimp only []
  rw [mkPlanDecision_ok_of _ _ _ _ (by decide) (by simp)
    (by
      simp only [String.length_append]
      have e1 : ("Allocated ").length = 10 := by decide
      have e2 : (" weeks across phases based on timeline. ").length = 40 := by decide
      omega)
    (by
      simp only [String.length_append]
      have e1 : ("wk base, ").length = 9 := by decide
      have e2 : ("wk build, ").length = 10 := by decide
      omega)]
  refine ⟨_, _, rfl, rfl, rfl, rfl, ?_⟩
  dsimp only []
  split <;> omega

section EvalC6

attribute [local semireducible] Rat.add Rat.sub Rat.mul Rat.div Rat.neg Rat.inv

/-- Claim C6, counterexample to the frozen claim: on `mC6` (medium bucket
0.3/0.4/0.2/0.1), a 12-week plan and the consistent profile `pOk` the source
truncates (`int`), giving 3/6/2/1 after reconciliation, while the claimed
`round(...)` allocation would give 4/5/2/1. -/
theorem phase_alloc_round_counterexample :
    (determinePhases mC6 12 pOk).map Prod.fst =
      .ok { base := 3, build := 6, peak := 2, taper := 1 } ∧
    determinePhasesSpecRound mC6 12 pOk =
      .ok { base := 4, build := 5, peak := 2, taper := 1 } ∧
    (determinePhases mC6 12 pOk).map Prod.fst ≠
      determinePhasesSpecRound mC6 12 pOk := by
  refine ⟨by decide, by decide, ?_⟩
  decide

/-- Witness for `phase_alloc_formula`: its consistency hypothesis holds at
`pOk` (8 weeks), and the allocation for a 12-week `mC6` plan sums to 12. -/
theorem phase_alloc_formula_witness :
    ∃ ph d, determinePhases mC6 12 pOk = .ok (ph, d) ∧
      ph.base + ph.build + ph.peak + ph.taper = (12 : ℤ) := by
  obtain ⟨ph, d, hok, -, -, -, hsum⟩ := phase_alloc_formula mC6 12 pOk 8 rfl
  exact ⟨ph, d, hok, hsum⟩

end EvalC6


/-- Claim C7: the sleep-deviation penalty is exactly the claimed piecewise
function — 0 at or above 8.0h, `(8 − h)/8` on `[7, 8)`, and the capped
`(8−7)/8 + ((7−h)/7)²` below 7.0 — and it is strictly decreasing in the
sleep hours on `[7, 8)` and strictly above the value at 7.0 for every input
below 7.0. -/
theorem sleep_penalty_piecewise (s t : ℚ) :
    (8 ≤ s → calcSleepDeviationPenalty s = 0) ∧
    (7 ≤ s → s < 8 → calcSleepDeviationPenalty s = (8 - s) / 8) ∧
    (s < 7 →
      calcSleepDeviationPenalty s = min 1 ((8 - 7) / 8 + ((7 - s) / 7) ^ 2)) ∧
    (7 ≤ s → s < t → t < 8 →
      calcSleepDeviationPenalty t < calcSleepDeviationPenalty s) ∧
    (s < 7 → calcSleepDeviationPenalty 7 < calcSleepDeviationPenalty s) := by
  refine ⟨?_, ?_, ?_, ?_, ?_⟩
  · intro h
    unfold calcSleepDeviationPenalty
    rw [if_pos h]
  · intro h1 h2
    unfold calcSleepDeviationPenalty
    rw [if_neg (by linarith), if_pos h1]
  · intro h
    unfold calcSleepDeviationPenalty
    rw [if_neg (by linarith), if_neg (by linarith)]
  · intro h1 h2 h3
    unfold calcSleepDeviationPenalty
    rw [if_neg (by linarith), if_pos (by linarith),
        if_neg (by linarith), if_pos h1]
    linarith
  · intro h
    unfold calcSleepDeviationPenalty
    rw [if_neg (by norm_num), if_pos (by norm_num),
        if_neg (by linarith), if_neg (by linarith)]
    have hq0 : 0 < (7 - s) / 7 := div_pos (by linarith) (by norm_num)
    have hq : 0 < ((7 - s) / 7) ^ 2 := pow_pos hq0 2
    rw [lt_min_iff]
    constructor <;> nlinarith [hq]

/-- Witness for `sleep_penalty_piecewise`: every branch hypothesis is
realised at a concrete sleep value (9h, 7.5h, 6h, the pair 7.25h/7.75h,
and 6h against the 7h boundary). -/
theorem sleep_penalty_piecewise_witness :
    calcSleepDeviationPenalty 9 = 0 ∧
    calcSleepDeviationPenalty (15/2) = 1/16 ∧
    calcSleepDeviationPenalty 6 = min 1 ((8 - 7) / 8 + ((7 - 6) / 7) ^ 2) ∧
    calcSleepDeviationPenalty (31/4) < calcSleepDeviationPenalty (29/4) ∧
    calcSleepDeviationPenalty 7 < calcSleepDeviationPenalty 6 := by
  refine ⟨?_, ?_, ?_, ?_, ?_⟩
  · exact (sleep_penalty_piecewise 9 0).1 (by norm_num)
  · rw [(sleep_penalty_piecewise (15/2) 0).2.1 (by norm_num) (by norm_num)]
    norm_num
  · exact (sleep_penalty_piecewise 6 0).2.2.1 (by norm_num)
  · exact (sleep_penalty_piecewise (29/4) (31/4)).2.2.2.1
      (by norm_num) (by norm_num) (by norm_num)
  · exact (sleep_penalty_piecewise 6 0).2.2.2.2 (by norm_num)


/-- A threshold expression matching none of the supported comparison forms
evaluates to `False` without raising. -/
lemma evaluateThresholdSimple_default (e : String) (v : PyVal)
    (h5 : (pyLower e == "true") = false)
    (h6 : (pyLower e == "false") = false)
    (h7 : pyStarts e "< " = false)
    (h8 : pyStarts e "<= " = false)
    (h9 : pyStarts e "> " = false)
    (h10 : pyStarts e ">= " = false)
    (h11 : pyStarts e "== " = false) :
    evaluateThresholdSimple e v = .ok false := by
  unfold evaluateThresholdSimple
  simp only [h5, h6, h7, h8, h9, h10, h11, Bool.false_eq_true, if_false]

/-- Claim C8 (amended): when the rule text contains none of the supported
comparator substrings the rule evaluator falls through to `(False, None)`
without raising, and a gate threshold with no OR-combinator and none of the
comparison prefixes evaluates to `False`; but the evaluators are *not*
exception-free on arbitrary input (see the counterexample: a recognised
comparator with a malformed numeric literal raises `ValueError`). -/
theorem evaluator_fails_closed (rule : String) (v : PyVal) (e : String)
    (h1 : containsSub (pyReplace rule "user." "") "<=" = false)
    (h2 : containsSub (pyReplace rule "user." "") ">=" = false)
    (h3 : containsSub (pyReplace rule "user." "") "==" = false)
    (h4 : containsSub (pyReplace rule "user." "") " in " = false)
    (h5 : (pyLower (pyStrip e) == "true") = false)
    (h6 : (pyLower (pyStrip e) == "false") = false)
    (h7 : pyStarts (pyStrip e) "< " = false)
    (h8 : pyStarts (pyStrip e) "<= " = false)
    (h9 : pyStarts (pyStrip e) "> " = false)
    (h10 : pyStarts (pyStrip e) ">= " = false)
    (h11 : pyStarts (pyStrip e) "== " = false)
    (h12 : containsSub (pyStrip e) " OR " = false) :
    evaluateValidationRule rule v = .ok (false, Option.none) ∧
    evaluateThreshold e v = .ok false := by
  constructor
  · have hlen : (pySplitOn (pyReplace rule "user." "") "<=").length = 1 := by
      unfold containsSub at h1
      simpa using h1
    unfold evaluateValidationRule
    dsimp only []
    simp only [hlen, h1, h2, h3, h4, Bool.false_eq_true, if_false]
    norm_num
  · have hlen : (pySplitOn (pyStrip e) " OR ").length = 1 := by
      unfold containsSub at h12
      simpa using h12
    unfold evaluateThreshold
    dsimp only []
    rw [hlen]
    norm_num
    exact evaluateThresholdSimple_default _ v h5 h6 h7 h8 h9 h10 h11

/-- Claim C8, counterexample to the frozen claim: the rule `">= abc"` *is*
recognised (it contains `>=`), so the evaluator calls `float("abc")`, which
raises a `ValueError` that escapes — the evaluator is not exception-free. -/
theorem evaluator_raises_counterexample :
    evaluateValidationRule ">= abc" (.num 5) =
      .error (.valueError "could not convert string to float: abc") := by
  decide

/-- Witness for `evaluator_fails_closed`: all twelve no-comparator
hypotheses hold for the rule `"no comparison here"` and the gate threshold
`"utter garbage"`, which both fail closed. -/
theorem evaluator_fails_closed_witness :
    evaluateValidationRule "no comparison here" (.num 5) =
      .ok (false, Option.none) ∧
    evaluateThreshold "utter garbage" (.num 5) = .ok false :=
  evaluator_fails_closed "no comparison here" (.num 5) "utter garbage"
    (by decide) (by decide) (by decide) (by decide) (by decide) (by decide)
    (by decide) (by decide) (by decide) (by decide) (by decide) (by decide)


/-- Claim C9: `modify_assumption` never mutates the analyzer's baseline —
the analyzer state after a call is the state before it (all modification
happens on the deep copy), and a second call on the post-call analyzer
behaves exactly as on the original, so repeated calls always diff against
the original baseline. -/
theorem baseline_never_mutated (a : SensitivityAnalyzer) (k : String)
    (v : PyVal) (k2 : String) (v2 : PyVal) :
    (modifyAssumption a k v).2 = a ∧
    (modifyAssumption a k v).2.baseline_profile = a.baseline_profile ∧
    modifyAssumption ((modifyAssumption a k v).2) k2 v2 =
      modifyAssumption a k2 v2 :=
  ⟨rfl, rfl, rfl⟩

set_option maxHeartbeats 1000000 in
/-- Claim C10: when the modified scenario is refused by validation, the
returned SensitivityResult carries no fragility information at all —
`original_fragility`, `new_fragility` and `fragility_delta` are all `None`,
even when the baseline validation was approved and had a fragility score. -/
theorem refused_scenario_no_fragility (a : SensitivityAnalyzer) (k : String)
    (v : PyVal) (r : SensitivityResult)
    (h : (modifyAssumption a k v).1 = .ok r)
    (hr : r.new_validation_status = "refused") :
    r.original_fragility = Option.none ∧ r.new_fragility = Option.none ∧
      r.fragility_delta = Option.none := by
  unfold modifyAssumption modifyAssumptionRun at h
  dsimp only [] at h
  split at h
  · exact Except.noConfusion h
  rename_i ov hov
  split at h
  · exact Except.noConfusion h
  rename_i mp hmp
  split at h
  · exact Except.noConfusion h
  rename_i nv hnv
  by_cases hap : nv.approved = true
  · simp only [hap, if_true, true_and] at h
    repeat' split at h
    all_goals try exact Except.noConfusion h
    all_goals
      cases h
      exact absurd ((validate_refused_iff hnv).mp hr) (by simp [hap])
  · have hap' : nv.approved = false := Bool.eq_false_iff.mpr hap
    simp only [hap', Bool.false_eq_true, if_false, false_and] at h
    repeat' split at h
    all_goals try exact Except.noConfusion h
    all_goals
      cases h
      exact ⟨rfl, rfl, rfl⟩

section EvalC10

attribute [local semireducible] Rat.add Rat.sub Rat.mul Rat.div Rat.neg Rat.inv

/-- Witness for `refused_scenario_no_fragility`: flipping
`current_state.injury_status` to `True` on the approved baseline `aBase`
makes re-validation refuse, and the returned result reports `None` for all
three fragility fields. -/
theorem refused_scenario_no_fragility_witness :
    ∃ r, (modifyAssumption aBase "current_state.injury_status"
        (.bool true)).1 = .ok r ∧
      r.new_validation_status = "refused" ∧
      r.original_fragility = Option.none ∧ r.new_fragility = Option.none ∧
      r.fragility_delta = Option.none := by
  obtain ⟨r, hr⟩ := exists_ok_of_isOk
    (o := (modifyAssumption aBase "current_state.injury_status" (.bool true)).1)
    (by decide)
  have hst : r.new_validation_status = "refused" := by
    have h2 : ((modifyAssumption aBase "current_state.injury_status"
        (.bool true)).1).map (fun x => x.new_validation_status) =
        .ok "refused" := by decide
    rw [hr] at h2
    simpa [Except.map] using h2
  obtain ⟨h3, h4, h5⟩ :=
    refused_scenario_no_fragility aBase "current_state.injury_status"
      (.bool true) r hr hst
  exact ⟨r, hr, hst, h3, h4, h5⟩

end EvalC10

end TP
